import Mathlib

set_option maxHeartbeats 1000000
set_option maxRecDepth 10000

/-! Verification development for the matrix-react-sdk fragment consisting of
the OIDC authorization-code helper (`src/utils/oidc/authorize.ts`) and the
cross-tab session lock protocol.  The OIDC functions are embedded directly
from the TypeScript source; the session lock implementation is not part of
the source tree (only its test file is), so it is modelled from the design
specification. -/

/-- The character `LEFT CURLY BRACKET`. -/
def jsonLBrace : Char := Char.ofNat 123

/-- The character `RIGHT CURLY BRACKET`. -/
def jsonRBrace : Char := Char.ofNat 125

/-- JavaScript values as produced by `JSON.parse`.  The embedding restricts
JSON numbers to integers and JSON strings to those built from ordinary
characters plus the escapes for quote, backslash, slash, newline, tab and
carriage return; the stored OIDC configuration objects fit this fragment. -/
inductive JsValue where
  | null
  | bool (b : Bool)
  | num (n : Int)
  | str (s : String)
  | arr (elems : List JsValue)
  | obj (fields : List (String × JsValue))

/-- JavaScript truthiness of a parsed JSON value: `null`, `false`, `0` and
the empty string are falsy, everything else (including every array and
object) is truthy. -/
def JsValue.truthy : JsValue → Bool
  | .null => false
  | .bool b => b
  | .num n => n != 0
  | .str s => s != ""
  | .arr _ => true
  | .obj _ => true

/-- Escape one character for a JSON string literal, as `JSON.stringify`
does for quote and backslash. -/
def escapeJsonChar (c : Char) : String :=
  if c = '"' then "\\\""
  else if c = '\\' then "\\\\"
  else String.mk [c]

/-- Quote a string as a JSON string literal. -/
def quoteJsonString (s : String) : String :=
  "\"" ++ String.join (s.toList.map escapeJsonChar) ++ "\""

mutual

/-- `JSON.stringify` on the modelled value fragment (no added whitespace,
exactly as the JavaScript builtin prints). -/
def jsonStringify : JsValue → String
  | .null => "null"
  | .bool true => "true"
  | .bool false => "false"
  | .num n => toString n
  | .str s => quoteJsonString s
  | .arr es => "[" ++ stringifyElems es ++ "]"
  | .obj fs => String.mk [jsonLBrace] ++ stringifyFields fs ++ String.mk [jsonRBrace]

/-- Comma-separated rendering of JSON array elements. -/
def stringifyElems : List JsValue → String
  | [] => ""
  | e :: [] => jsonStringify e
  | e :: rest => jsonStringify e ++ "," ++ stringifyElems rest

/-- Comma-separated rendering of JSON object fields. -/
def stringifyFields : List (String × JsValue) → String
  | [] => ""
  | (key, val) :: [] => quoteJsonString key ++ ":" ++ jsonStringify val
  | (key, val) :: rest =>
    quoteJsonString key ++ ":" ++ jsonStringify val ++ "," ++ stringifyFields rest

end

/-- Skip JSON whitespace. -/
def wsSkip : List Char → List Char
  | [] => []
  | c :: cs => if c = ' ' ∨ c = '\n' ∨ c = '\t' ∨ c = '\r' then wsSkip cs else c :: cs

/-- Decode one escape character of a JSON string literal (quote, backslash
and slash stand for themselves; `n`, `t`, `r` give the usual controls). -/
def escChar (e : Char) : Option Char :=
  if e = '"' ∨ e = '\\' ∨ e = '/' then some e
  else if e = 'n' then some (Char.ofNat 10)
  else if e = 't' then some (Char.ofNat 9)
  else if e = 'r' then some (Char.ofNat 13)
  else none

/-- Read the body of a JSON string literal up to the closing quote,
returning the decoded characters and the remaining input. -/
def parseStringBody : List Char → Option (List Char × List Char)
  | [] => none
  | '"' :: rest => some ([], rest)
  | '\\' :: e :: rest =>
    match escChar e with
    | some c => (parseStringBody rest).map fun p => (c :: p.1, p.2)
    | none => none
  | c :: rest =>
    if c = '\\' then none
    else (parseStringBody rest).map fun p => (c :: p.1, p.2)

/-- Split a leading run of decimal digits off the input. -/
def takeDigits : List Char → List Char × List Char
  | [] => ([], [])
  | c :: cs =>
    if c.isDigit then
      let p := takeDigits cs
      (c :: p.1, p.2)
    else ([], c :: cs)

/-- Numeric value of a digit string. -/
def digitsToNat (ds : List Char) : Nat :=
  ds.foldl (fun a c => a * 10 + (c.toNat - 48)) 0

/-- JSON rejects redundant leading zeros in number literals. -/
def leadingZeroBad : List Char → Bool
  | '0' :: _ :: _ => true
  | _ => false

/-- Parse a JSON integer literal (optionally negative). -/
def parseNum : List Char → Option (JsValue × List Char)
  | '-' :: rest =>
    let p := takeDigits rest
    if p.1 = [] then none
    else if leadingZeroBad p.1 then none
    else some (.num (-(digitsToNat p.1 : Int)), p.2)
  | cs =>
    let p := takeDigits cs
    if p.1 = [] then none
    else if leadingZeroBad p.1 then none
    else some (.num (digitsToNat p.1), p.2)

mutual

/-- Fuel-indexed recursive-descent JSON parser: one value plus the
remaining input. -/
def parseVal : Nat → List Char → Option (JsValue × List Char)
  | 0, _ => none
  | fuel + 1, cs =>
    match wsSkip cs with
    | 'n' :: 'u' :: 'l' :: 'l' :: rest => some (.null, rest)
    | 't' :: 'r' :: 'u' :: 'e' :: rest => some (.bool true, rest)
    | 'f' :: 'a' :: 'l' :: 's' :: 'e' :: rest => some (.bool false, rest)
    | '"' :: rest => (parseStringBody rest).map fun p => (.str (String.mk p.1), p.2)
    | '[' :: rest =>
      (match wsSkip rest with
       | ']' :: r2 => some (.arr [], r2)
       | other => (parseElems fuel other).map fun p => (.arr p.1, p.2))
    | c :: rest =>
      if c = jsonLBrace then
        match wsSkip rest with
        | c2 :: r2 =>
          if c2 = jsonRBrace then some (.obj [], r2)
          else (parseFields fuel (c2 :: r2)).map fun p => (.obj p.1, p.2)
        | [] => none
      else parseNum (c :: rest)
    | [] => none

/-- Parse the non-empty element list of a JSON array, consuming the
closing bracket. -/
def parseElems : Nat → List Char → Option (List JsValue × List Char)
  | 0, _ => none
  | fuel + 1, cs =>
    match parseVal fuel cs with
    | none => none
    | some (v, rest) =>
      match wsSkip rest with
      | ',' :: r2 => (parseElems fuel r2).map fun p => (v :: p.1, p.2)
      | ']' :: r2 => some ([v], r2)
      | _ => none

/-- Parse the non-empty field list of a JSON object, consuming the
closing brace. -/
def parseFields : Nat → List Char → Option (List (String × JsValue) × List Char)
  | 0, _ => none
  | fuel + 1, cs =>
    match wsSkip cs with
    | '"' :: rest =>
      match parseStringBody rest with
      | none => none
      | some (kcs, r1) =>
        match wsSkip r1 with
        | ':' :: r2 =>
          match parseVal fuel r2 with
          | none => none
          | some (v, r3) =>
            match wsSkip r3 with
            | ',' :: r4 => (parseFields fuel r4).map fun p => ((String.mk kcs, v) :: p.1, p.2)
            | c :: r4 => if c = jsonRBrace then some ([(String.mk kcs, v)], r4) else none
            | [] => none
        | _ => none
    | _ => none

end

/-- `JSON.parse` on the modelled fragment: `none` models a thrown
`SyntaxError`. -/
def jsonParse (s : String) : Option JsValue :=
  match parseVal (s.length + 4) s.toList with
  | some (v, rest) => if wsSkip rest = [] then some v else none
  | none => none

namespace Oidc

/-- Named errors of the OIDC login flow.  `InvalidQueryParameters` and
`StoredParamsNotFound` are the named errors of `OidcClientError`
(src/utils/oidc/error.ts); `JsonError` models the JavaScript `SyntaxError`
escaping from `JSON.parse`; `TokenExchangeError` models any failure thrown
by the external `completeAuthorizationCodeGrant`. -/
inductive OidcError where
  | InvalidQueryParameters
  | StoredParamsNotFound
  | JsonError
  | TokenExchangeError
deriving DecidableEq, Repr

/-- `window.sessionStorage` as an association list of string keys and
string values. -/
abbrev Store := List (String × String)

/-- `sessionStorage.getItem`: `none` models the JavaScript `null`. -/
def getItem : Store → String → Option String
  | [], _ => none
  | (k', v) :: rest, k => if k' = k then some v else getItem rest k

/-- `sessionStorage.setItem`: overwrites an existing entry in place,
otherwise appends. -/
def setItem : Store → String → String → Store
  | [], k, v => [(k, v)]
  | (k', v') :: rest, k, v =>
    if k' = k then (k, v) :: rest else (k', v') :: setItem rest k v

/-- `sessionStorage.removeItem`. -/
def removeItem : Store → String → Store
  | [], _ => []
  | (k', v') :: rest, k =>
    if k' = k then removeItem rest k else (k', v') :: removeItem rest k

/-- The storage key `oidc_${state}_${field}` used by
`storeAuthorizationParams` and `retrieveAuthorizationParams`. -/
def oidcKey (state field : String) : String :=
  "oidc_" ++ state ++ "_" ++ field

/-- Modelled from the spec: the issuer metadata
(`ValidatedDelegatedAuthConfig`, declared in `utils/ValidatedServerConfig`,
which is not part of the source tree) persisted for future interactions
with the identity provider. -/
structure ValidatedDelegatedAuthConfig where
  issuer : String
  authorizationEndpoint : String
  tokenEndpoint : String
  registrationEndpoint : Option String
  account : Option String

/-- The JSON object that `JSON.stringify` serializes for a
`ValidatedDelegatedAuthConfig`; fields holding `undefined` are omitted,
as the JavaScript builtin does. -/
def configToJs (c : ValidatedDelegatedAuthConfig) : JsValue :=
  .obj ([("issuer", JsValue.str c.issuer),
         ("authorizationEndpoint", JsValue.str c.authorizationEndpoint),
         ("tokenEndpoint", JsValue.str c.tokenEndpoint)]
    ++ (match c.registrationEndpoint with
        | some r => [("registrationEndpoint", JsValue.str r)]
        | none => [])
    ++ (match c.account with
        | some a => [("account", JsValue.str a)]
        | none => []))

/-- The fields of `AuthorizationParams` produced by
`generateAuthorizationParams` that `storeAuthorizationParams` consumes. -/
structure AuthorizationParams where
  state : String
  scope : String
  redirectUri : String
  nonce : String
  codeVerifier : String

/-- `storeAuthorizationParams`: persists the authorization parameters in
session storage keyed by `state`; `identityServerUrl` is written only when
truthy (present and non-empty). -/
def storeAuthorizationParams (ap : AuthorizationParams)
    (delegatedAuthConfig : ValidatedDelegatedAuthConfig)
    (clientId homeserverUrl : String) (identityServerUrl : Option String)
    (st : Store) : Store :=
  let st1 := setItem st (oidcKey ap.state "nonce") ap.nonce
  let st2 := setItem st1 (oidcKey ap.state "redirectUri") ap.redirectUri
  let st3 := setItem st2 (oidcKey ap.state "codeVerifier") ap.codeVerifier
  let st4 := setItem st3 (oidcKey ap.state "clientId") clientId
  let st5 := setItem st4 (oidcKey ap.state "delegatedAuthConfig")
      (jsonStringify (configToJs delegatedAuthConfig))
  let st6 := setItem st5 (oidcKey ap.state "homeserverUrl") homeserverUrl
  match identityServerUrl with
  | some u => if u = "" then st6 else setItem st6 (oidcKey ap.state "identityServerUrl") u
  | none => st6

/-- The raw values handed to `validateStoredAuthorizationParams`: each
session-storage read yields a string or `null`, and the configuration slot
is the result of `JSON.parse` (or `undefined` when the raw entry was
falsy). -/
structure UnvalidatedStoredParams where
  nonce : Option String
  redirectUri : Option String
  codeVerifier : Option String
  clientId : Option String
  homeserverUrl : Option String
  identityServerUrl : Option String
  delegatedAuthConfig : Option JsValue

/-- The validated parameters (`StoredAuthorizationParams`): the five
required fields are non-empty strings, `identityServerUrl` stays optional
(the source only checks `undefined` or string), and the configuration is
the parsed JSON value, whose shape the source does not re-validate. -/
structure StoredAuthorizationParams where
  nonce : String
  redirectUri : String
  codeVerifier : String
  clientId : String
  homeserverUrl : String
  identityServerUrl : Option String
  delegatedAuthConfig : JsValue

/-- JavaScript `params[key] && typeof params[key] === "string"` for a
retrieved value: present and non-empty. -/
def reqOk : Option String → Bool
  | some s => s != ""
  | none => false

/-- JavaScript `!!params.delegatedAuthConfig` on the parsed slot. -/
def truthyOpt : Option JsValue → Bool
  | some v => v.truthy
  | none => false

/-- `validateStoredAuthorizationParams`: requires every required property
to be a truthy string and the configuration to be truthy, and returns the
parameters unchanged (the `identityServerUrl` check `undefined or string`
always holds here because retrieved values are `Option String`).  The
`getD` defaults are never used: the guard guarantees the fields are
present. -/
def validateStoredAuthorizationParams (p : UnvalidatedStoredParams) :
    Except OidcError StoredAuthorizationParams :=
  if reqOk p.nonce && reqOk p.redirectUri && reqOk p.codeVerifier &&
     reqOk p.clientId && reqOk p.homeserverUrl && truthyOpt p.delegatedAuthConfig then
    .ok ⟨p.nonce.getD "", p.redirectUri.getD "", p.codeVerifier.getD "",
         p.clientId.getD "", p.homeserverUrl.getD "", p.identityServerUrl,
         p.delegatedAuthConfig.getD JsValue.null⟩
  else .error OidcError.StoredParamsNotFound

/-- The body of `retrieveAuthorizationParams` expressed over the seven raw
reads: the configuration string, when truthy, is fed to `JSON.parse`
(whose failure propagates as `JsonError`), otherwise `undefined` is
passed on; then validation runs. -/
def retrieveCore (nonce redirectUri codeVerifier clientId homeserverUrl
    identityServerUrl cfgRaw : Option String) :
    Except OidcError StoredAuthorizationParams :=
  match cfgRaw with
  | none => validateStoredAuthorizationParams
      ⟨nonce, redirectUri, codeVerifier, clientId, homeserverUrl, identityServerUrl, none⟩
  | some s =>
    if s = "" then
      validateStoredAuthorizationParams
        ⟨nonce, redirectUri, codeVerifier, clientId, homeserverUrl, identityServerUrl, none⟩
    else
      match jsonParse s with
      | none => .error OidcError.JsonError
      | some v => validateStoredAuthorizationParams
          ⟨nonce, redirectUri, codeVerifier, clientId, homeserverUrl, identityServerUrl, some v⟩

/-- `retrieveAuthorizationParams`: reads the seven session-storage entries
for `state` and validates them. -/
def retrieveAuthorizationParams (st : Store) (state : String) :
    Except OidcError StoredAuthorizationParams :=
  retrieveCore
    (getItem st (oidcKey state "nonce"))
    (getItem st (oidcKey state "redirectUri"))
    (getItem st (oidcKey state "codeVerifier"))
    (getItem st (oidcKey state "clientId"))
    (getItem st (oidcKey state "homeserverUrl"))
    (getItem st (oidcKey state "identityServerUrl"))
    (getItem st (oidcKey state "delegatedAuthConfig"))

/-- A value of the query dictionary (`QueryDict` of matrix-js-sdk): a
string, an array of strings, or a number. -/
inductive QueryValue where
  | str (s : String)
  | strList (l : List String)
  | num (n : Int)
deriving DecidableEq, Repr

/-- Query parameters extracted from the redirect URI. -/
abbrev QueryDict := List (String × QueryValue)

/-- First-match lookup in a query dictionary (`queryParams["code"]`). -/
def qLookup : QueryDict → String → Option QueryValue
  | [], _ => none
  | (k', v) :: rest, k => if k' = k then some v else qLookup rest k

/-- `getCodeAndStateFromQueryParams`: fails with
`InvalidQueryParameters` unless both `code` and `state` are truthy
strings (absent, empty, array and number values all fail the
`!code || typeof code !== "string"` test). -/
def getCodeAndStateFromQueryParams (q : QueryDict) :
    Except OidcError (String × String) :=
  match qLookup q "code", qLookup q "state" with
  | some (.str c), some (.str s) =>
    if c = "" ∨ s = "" then .error OidcError.InvalidQueryParameters
    else .ok (c, s)
  | _, _ => .error OidcError.InvalidQueryParameters

/-- The bearer token response returned by the external
`completeAuthorizationCodeGrant`. -/
structure BearerTokenResponse where
  access_token : String
deriving DecidableEq, Repr

/-- The result object of `completeOidcLogin`. -/
structure CompleteOidcLoginResult where
  homeserverUrl : String
  identityServerUrl : Option String
  accessToken : String
deriving DecidableEq, Repr

/-- `completeOidcLogin`: extracts `code` and `state`, retrieves the stored
parameters for `state`, exchanges the code through the external client
(`exchange` stands for `completeAuthorizationCodeGrant`; its failures are
distinct from the two named client errors), and returns the result object.
The session storage is threaded through to make the frame behaviour
observable: no branch writes to it. -/
def completeOidcLogin
    (exchange : String → StoredAuthorizationParams → Except Unit BearerTokenResponse)
    (q : QueryDict) (st : Store) :
    Except OidcError CompleteOidcLoginResult × Store :=
  match getCodeAndStateFromQueryParams q with
  | .error e => (.error e, st)
  | .ok (code, state) =>
    match retrieveAuthorizationParams st state with
    | .error e => (.error e, st)
    | .ok p =>
      match exchange code p with
      | .error _ => (.error OidcError.TokenExchangeError, st)
      | .ok resp => (.ok ⟨p.homeserverUrl, p.identityServerUrl, resp.access_token⟩, st)

/-- A well-formed configuration slot: absent, empty, or parseable. -/
def CfgWell (cfg : Option String) : Prop :=
  match cfg with
  | some s => s = "" ∨ jsonParse s ≠ none
  | none => True

/-- The outcome of retrieval once validation is doomed to fail: it depends
only on the raw configuration slot (parse error or `StoredParamsNotFound`). -/
def badResult (cfg : Option String) : Except OidcError StoredAuthorizationParams :=
  match cfg with
  | none => .error OidcError.StoredParamsNotFound
  | some s =>
    if s = "" then .error OidcError.StoredParamsNotFound
    else match jsonParse s with
         | none => .error OidcError.JsonError
         | some _ => .error OidcError.StoredParamsNotFound

/-- `startOidcLogin`, restricted to its storage effect: generates
authorization parameters (passed in here, since generation is an external
random process) and persists them; the subsequent navigation has no
storage effect. -/
def startOidcLogin (ap : AuthorizationParams)
    (delegatedAuthConfig : ValidatedDelegatedAuthConfig)
    (clientId homeserverUrl : String) (identityServerUrl : Option String)
    (st : Store) : Store :=
  storeAuthorizationParams ap delegatedAuthConfig clientId homeserverUrl identityServerUrl st

end Oidc

namespace SessionLock

/-- Modelled from the spec: the holder refreshes its heartbeat every 5
time units. -/
def HEARTBEAT_INTERVAL : Nat := 5

/-- Modelled from the spec: a lock record whose heartbeat is 30 time units
old is treated as vacant. -/
def STALE_TIMEOUT : Nat := 30

/-- Modelled from the spec: the waiter-side Watchdog staleness poll runs
every fixed interval; 5 time units reproduces the observed takeover at
exactly `lastHeartbeat + STALE_TIMEOUT` in the crash scenario. -/
def POLL_INTERVAL : Nat := 5

/-- Modelled from the spec: the LockRecord `{holderId, lastHeartbeat}`
kept in the shared store. -/
structure LockRecord where
  holderId : Nat
  lastHeartbeat : Nat
deriving DecidableEq, Repr

/-- Modelled from the spec: the single RequestRecord
`{requesterId, requestedAt}`. -/
structure RequestRecord where
  requesterId : Nat
  requestedAt : Nat
deriving DecidableEq, Repr

/-- Modelled from the spec: the shared, non-transactional key-value store,
holding at most one LockRecord and one RequestRecord. -/
structure SharedStore where
  lock : Option LockRecord
  request : Option RequestRecord
deriving DecidableEq, Repr

/-- Staleness is purely a function of elapsed time since the last
heartbeat. -/
def isStale (now : Nat) (l : LockRecord) : Bool :=
  STALE_TIMEOUT ≤ now - l.lastHeartbeat

/-- Modelled from the spec: the per-instance states of the coordinator
state machine (`releasing n` counts down the remaining duration of the
instance's `onSuperseded` callback). -/
inductive Phase where
  | waiting
  | holding
  | releasing (remaining : Nat)
  | released
  | backedOff
deriving DecidableEq, Repr

/-- Modelled from the spec: one execution context running the lock
coordinator.  `cleanupTime` is the duration of its `onSuperseded`
callback, `result` the eventual resolution of its `acquire` call,
`resolvedAt` the tick of that resolution, `superInvokedAt` the tick its
own `onSuperseded` was invoked, and `frozen` marks a crashed instance
that takes no further steps. -/
structure Inst where
  id : Nat
  phase : Phase
  started : Nat
  cleanupTime : Nat
  result : Option Bool
  resolvedAt : Option Nat
  superInvokedAt : Option Nat
  frozen : Bool
deriving DecidableEq, Repr

/-- The whole system: current time, shared store, instances in creation
order (cross-instance concurrency is a fixed sequential interleaving of
single-threaded actors, per the concurrency model). -/
structure World where
  now : Nat
  store : SharedStore
  insts : List Inst
deriving DecidableEq, Repr

/-- Does this instance currently believe it owns the lock (holding, or
winding down but not yet released)? -/
def holdsLock (i : Inst) : Bool :=
  match i.phase with
  | .holding => true
  | .releasing _ => true
  | _ => false

/-- Write the LockRecord for a successful claim; as part of claiming, the
claimer clears its own RequestRecord (spec step 4), leaving any foreign
one in place. -/
def claimStore (id now : Nat) (st : SharedStore) : SharedStore :=
  { lock := some ⟨id, now⟩,
    request := match st.request with
               | some r => if r.requesterId = id then none else some r
               | none => none }

/-- Resolve this instance's `acquire` with `true` and make it the
holder. -/
def resolveTrue (i : Inst) (now : Nat) : Inst :=
  { i with phase := Phase.holding, result := some true, resolvedAt := some now }

/-- Modelled from the spec: the entry of `acquire` (steps 1–2 of the
coordinator algorithm).  An absent or stale LockRecord is claimed at once;
a fresh LockRecord with an already-populated foreign RequestRecord makes
the caller back off to `false` immediately; otherwise the caller registers
its RequestRecord and waits. -/
def acquireEntry (now : Nat) (st : SharedStore) (id cleanup : Nat) :
    Inst × SharedStore :=
  let base : Inst := ⟨id, Phase.waiting, now, cleanup, none, none, none, false⟩
  match st.lock with
  | none => (resolveTrue base now, claimStore id now st)
  | some l =>
    if isStale now l then (resolveTrue base now, claimStore id now st)
    else
      match st.request with
      | some r =>
        if r.requesterId = id then (base, st)
        else ({ base with phase := Phase.backedOff, result := some false,
                          resolvedAt := some now }, st)
      | none => (base, { st with request := some ⟨id, now⟩ })

/-- The holder's periodic heartbeat: rewrite `lastHeartbeat := now` once
`HEARTBEAT_INTERVAL` has elapsed since the recorded heartbeat. -/
def heartbeatStep (now : Nat) (st : SharedStore) (i : Inst) :
    Inst × SharedStore :=
  match st.lock with
  | some l =>
    if l.holderId = i.id ∧ HEARTBEAT_INTERVAL ≤ now - l.lastHeartbeat then
      (i, { st with lock := some ⟨i.id, now⟩ })
    else (i, st)
  | none => (i, st)

/-- Modelled from the spec: one scheduling step of a single instance.
A waiter claims as soon as the LockRecord is absent (Notifier path) and
checks staleness on its Watchdog poll grid; a holder that observes a
foreign RequestRecord stops heartbeating, invokes `onSuperseded`
(recording the supersession tick) and winds down; after the callback's
duration it clears the LockRecord and terminates. -/
def stepInst (now : Nat) (st : SharedStore) (i : Inst) : Inst × SharedStore :=
  if i.frozen then (i, st)
  else
    match i.phase with
    | .waiting =>
      (match st.lock with
       | none => (resolveTrue i now, claimStore i.id now st)
       | some l =>
         if (now - i.started) % POLL_INTERVAL = 0 ∧ i.started < now ∧ isStale now l then
           (resolveTrue i now, claimStore i.id now st)
         else (i, st))
    | .holding =>
      (match st.request with
       | some r =>
         if r.requesterId = i.id then heartbeatStep now st i
         else ({ i with phase := Phase.releasing i.cleanupTime,
                        superInvokedAt := some now }, st)
       | none => heartbeatStep now st i)
    | .releasing n =>
      if n ≤ 1 then ({ i with phase := Phase.released }, { st with lock := none })
      else ({ i with phase := Phase.releasing (n - 1) }, st)
    | .released => (i, st)
    | .backedOff => (i, st)

/-- Step every instance once, in creation order, threading the shared
store through. -/
def stepInsts (now : Nat) : List Inst → SharedStore → List Inst × SharedStore
  | [], st => ([], st)
  | i :: rest, st =>
    let p := stepInst now st i
    let q := stepInsts now rest p.2
    (p.1 :: q.1, q.2)

/-- One tick of the whole system. -/
def step (w : World) : World :=
  let p := stepInsts w.now w.insts w.store
  ⟨w.now + 1, p.2, p.1⟩

/-- Run `n` ticks. -/
def runTicks (w : World) : Nat → World
  | 0 => w
  | n + 1 => runTicks (step w) n

/-- Does at most one instance believe it holds the lock? -/
def atMostOneHolderB (w : World) : Bool :=
  (w.insts.filter holdsLock).length ≤ 1

/-- Run `n` ticks while checking mutual exclusion after every tick. -/
def runTicksCheck (w : World) : Nat → Bool × World
  | 0 => (true, w)
  | n + 1 =>
    let w' := step w
    let p := runTicksCheck w' n
    (atMostOneHolderB w' && p.1, p.2)

/-- A new execution context calls `acquire` (the entry runs synchronously
in the caller's thread of control). -/
def applyStart (w : World) (id cleanup : Nat) : World :=
  let p := acquireEntry w.now w.store id cleanup
  { w with store := p.2, insts := w.insts ++ [p.1] }

/-- The effect of the abrupt-teardown shutdown signal on one instance:
a holding or winding-down instance becomes released at once. -/
def shutdownInst (id : Nat) (i : Inst) : Inst :=
  if i.id = id then
    match i.phase with
    | .holding => { i with phase := Phase.released }
    | .releasing _ => { i with phase := Phase.released }
    | _ => i
  else i

/-- Modelled from the spec: the abrupt-teardown shutdown signal
(`pagehide`): a holding or winding-down instance releases synchronously
and immediately, without invoking `onSuperseded`. -/
def applyShutdown (w : World) (id : Nat) : World :=
  { now := w.now,
    store := { lock := (match w.store.lock with
                        | some l => if l.holderId = id then none else some l
                        | none => none),
               request := w.store.request },
    insts := w.insts.map (shutdownInst id) }

/-- An instance crashes: it takes no further steps and its timers stop,
but its store records remain and simply age out. -/
def applyCrash (w : World) (id : Nat) : World :=
  { w with insts := w.insts.map fun i =>
      if i.id = id then { i with frozen := true } else i }

/-- The resolution tick of instance `id`'s `acquire`, if it has
resolved. -/
def resolvedAtOf (w : World) (id : Nat) : Option Nat :=
  match w.insts.find? (fun i => i.id == id) with
  | some i => i.resolvedAt
  | none => none

/-- The resolution value of instance `id`'s `acquire`, if it has
resolved. -/
def resultOf (w : World) (id : Nat) : Option Bool :=
  match w.insts.find? (fun i => i.id == id) with
  | some i => i.result
  | none => none

/-- The tick at which instance `id`'s own `onSuperseded` was invoked, if
ever. -/
def superAtOf (w : World) (id : Nat) : Option Nat :=
  match w.insts.find? (fun i => i.id == id) with
  | some i => i.superInvokedAt
  | none => none

/-- The empty initial world: no store state, no instances. -/
def W0 : World := ⟨0, ⟨none, none⟩, []⟩

/-- Is `o` a resolution tick within `[lo, hi]`? -/
def resolvedWithin (o : Option Nat) (lo hi : Nat) : Bool :=
  match o with
  | some t => decide (lo ≤ t) && decide (t ≤ hi)
  | none => false

/-- Clean sequential use, one instance at a time: for each listed pair
`(s, e)`, advance to time `s`, start a fresh instance, advance to time
`e`, and shut it down cleanly; mutual exclusion is checked after every
tick and around every event.  Returns the conjunction of all checks and
the final world. -/
def cleanRunCheck : World → List (Nat × Nat) → Bool × World
  | w, [] => (true, w)
  | w, (s, e) :: rest =>
    let p1 := runTicksCheck w (s - w.now)
    let w1 := p1.2
    let newId := w1.insts.length
    let w2 := applyStart w1 newId 0
    let p2 := runTicksCheck w2 (e - s)
    let w3 := p2.2
    let w4 := applyShutdown w3 newId
    let p5 := cleanRunCheck w4 rest
    (p1.1 && atMostOneHolderB w2 && p2.1 && atMostOneHolderB w4 && p5.1, p5.2)

/-- Separation condition for clean sequential use: each instance starts no
earlier than the previous one's clean shutdown. -/
def Sep : Nat → List (Nat × Nat) → Prop
  | _, [] => True
  | t, (s, e) :: rest => t ≤ s ∧ s ≤ e ∧ Sep e rest

/-- Scenario C of the spec: a holder starts at `t = 0`, heartbeats at
`t = 5`, crashes at `t = 6`; a waiter starts at time `s` and the run is
observed at `t = 45`. -/
def scenarioCrash (s : Nat) : World :=
  let w1 := applyStart W0 0 0
  let w2 := runTicks w1 6
  let w3 := applyCrash w2 0
  let w4 := runTicks w3 (s - 6)
  let w5 := applyStart w4 1 0
  runTicks w5 (45 - s)

/-- Scenario D of the spec: a holder whose `onSuperseded` takes `cleanup`
ticks starts at `t = 0`; a second instance starts at `t = 2` and requests
the lock; the run is observed at `t = 40`. -/
def scenarioHandoff (cleanup : Nat) : World :=
  let w1 := applyStart W0 0 cleanup
  let w2 := runTicks w1 2
  let w3 := applyStart w2 1 0
  runTicks w3 38

/-- Scenario E of the spec: a holder with a 2-tick `onSuperseded` starts
at `t = 0` and heartbeats at `t = 5`; instances 1 and 2 both start at
`t = 6`; the run is observed at `t = 16`. -/
def scenarioContention : World :=
  let w1 := applyStart W0 0 2
  let w2 := runTicks w1 6
  let w3 := applyStart w2 1 0
  let w4 := applyStart w3 2 0
  runTicks w4 10

/-- A terminated instance of a clean sequential run: released, with its
`acquire` resolved `true` and its `onSuperseded` never invoked. -/
def DoneTrue (i : Inst) : Prop :=
  i.phase = Phase.released ∧ i.result = some true ∧ i.superInvokedAt = none

/-- A quiescent world: vacant store and every instance terminated cleanly
with `true`. -/
def InvQ (w : World) : Prop :=
  w.store.lock = none ∧ w.store.request = none ∧ ∀ i ∈ w.insts, DoneTrue i

/-- A world with exactly one live instance, holding the lock, and all
earlier instances terminated cleanly. -/
def SoloHolder (w : World) (id : Nat) : Prop :=
  (∃ hb, w.store.lock = some ⟨id, hb⟩) ∧ w.store.request = none ∧
  ∃ pre h, w.insts = pre ++ [h] ∧ (∀ i ∈ pre, DoneTrue i) ∧
    h.id = id ∧ h.phase = Phase.holding ∧ h.result = some true ∧
    h.superInvokedAt = none ∧ h.frozen = false

end SessionLock

namespace Oidc

theorem getItem_setItem_self (st : Store) (k v : String) :
    getItem (setItem st k v) k = some v := by
  induction st with
  | nil => simp [setItem, getItem]
  | cons p rest ih =>
    by_cases h : p.1 = k
    · simp [setItem, h, getItem]
    · simp [setItem, h, getItem, ih]

theorem getItem_setItem_ne (st : Store) {k k' : String} (v : String) (h : k ≠ k') :
    getItem (setItem st k v) k' = getItem st k' := by
  induction st with
  | nil => simp [setItem, getItem, h]
  | cons p rest ih =>
    by_cases hp : p.1 = k
    · simp [setItem, hp, getItem, h]
    · simp [setItem, hp, getItem, ih]

theorem getItem_removeItem_self (st : Store) (k : String) :
    getItem (removeItem st k) k = none := by
  induction st with
  | nil => simp [removeItem, getItem]
  | cons p rest ih =>
    by_cases hp : p.1 = k
    · simp [removeItem, hp, ih]
    · simp [removeItem, hp, getItem, ih]

theorem getItem_removeItem_ne (st : Store) {k k' : String} (h : k ≠ k') :
    getItem (removeItem st k) k' = getItem st k' := by
  induction st with
  | nil => simp [removeItem, getItem]
  | cons p rest ih =>
    by_cases hp : p.1 = k
    · simp [removeItem, hp, getItem, h, ih]
    · simp [removeItem, hp, getItem, ih]

theorem oidcKey_ne_of_length (state : String) {f1 f2 : String}
    (h : f1.length ≠ f2.length) : oidcKey state f1 ≠ oidcKey state f2 := by
  intro he
  apply h
  have hl := congrArg String.length he
  simp only [oidcKey, String.length_append] at hl
  omega

theorem validateStoredAuthorizationParams_bad {p : UnvalidatedStoredParams}
    (h : reqOk p.nonce = false ∨ reqOk p.redirectUri = false ∨
         reqOk p.codeVerifier = false ∨ reqOk p.clientId = false ∨
         reqOk p.homeserverUrl = false ∨ truthyOpt p.delegatedAuthConfig = false) :
    validateStoredAuthorizationParams p = .error OidcError.StoredParamsNotFound := by
  unfold validateStoredAuthorizationParams
  rcases h with h | h | h | h | h | h <;> simp [h]

theorem retrieveCore_jsonError {s : String} (hs : s ≠ "") (hp : jsonParse s = none)
    (a b c d e i : Option String) :
    retrieveCore a b c d e i (some s) = .error OidcError.JsonError := by
  simp [retrieveCore, hs, hp]

theorem retrieveCore_spnf_of_bad {a b c d e i cfg : Option String}
    (hw : CfgWell cfg)
    (h : reqOk a = false ∨ reqOk b = false ∨ reqOk c = false ∨
         reqOk d = false ∨ reqOk e = false) :
    retrieveCore a b c d e i cfg = .error OidcError.StoredParamsNotFound := by
  have hbad : ∀ v : Option JsValue,
      validateStoredAuthorizationParams ⟨a, b, c, d, e, i, v⟩ =
        .error OidcError.StoredParamsNotFound := by
    intro v
    apply validateStoredAuthorizationParams_bad
    rcases h with h | h | h | h | h <;> simp [h]
  match cfg with
  | none => simpa [retrieveCore] using hbad none
  | some s =>
    by_cases hse : s = ""
    · simpa [retrieveCore, hse] using hbad none
    · rcases hps : jsonParse s with _ | v
      · exact absurd hps (by simpa [CfgWell, hse] using hw)
      · simpa [retrieveCore, hse, hps] using hbad (some v)

theorem retrieveAuthorizationParams_ne_iqp (st : Store) (state : String) :
    retrieveAuthorizationParams st state ≠ .error OidcError.InvalidQueryParameters := by
  unfold retrieveAuthorizationParams retrieveCore
  split
  · unfold validateStoredAuthorizationParams; split <;> simp
  · split
    · unfold validateStoredAuthorizationParams; split <;> simp
    · split
      · simp
      · unfold validateStoredAuthorizationParams; split <;> simp

/-- C10: `completeOidcLogin` never writes to or removes entries from
session-scoped storage: after any completion attempt, successful or
failed, the storage is exactly as before the call, and re-running the
call with the same query parameters yields the same outcome. -/
theorem completeOidcLogin_no_store_write
    (ex : String → StoredAuthorizationParams → Except Unit BearerTokenResponse)
    (q : QueryDict) (st : Store) :
    (completeOidcLogin ex q st).2 = st ∧
    completeOidcLogin ex q (completeOidcLogin ex q st).2 = completeOidcLogin ex q st := by
  have h : (completeOidcLogin ex q st).2 = st := by
    unfold completeOidcLogin
    split
    · rfl
    · split
      · rfl
      · split <;> rfl
  exact ⟨h, by rw [h]⟩

/-- C8: on success `completeOidcLogin` returns exactly the stored target
homeserver URL, the stored identity-server URL (when one was stored) and
the access token obtained from the authorization-code exchange. -/
theorem completeOidcLogin_result_shape
    (ex : String → StoredAuthorizationParams → Except Unit BearerTokenResponse)
    (q : QueryDict) (st : Store) (code state : String)
    (p : StoredAuthorizationParams) (resp : BearerTokenResponse)
    (h1 : getCodeAndStateFromQueryParams q = .ok (code, state))
    (h2 : retrieveAuthorizationParams st state = .ok p)
    (h3 : ex code p = .ok resp) :
    (completeOidcLogin ex q st).1 =
      .ok ⟨p.homeserverUrl, p.identityServerUrl, resp.access_token⟩ := by
  simp only [completeOidcLogin, h1, h2, h3]

/-- Witness for C8 at a concrete query, store and exchange function. -/
theorem completeOidcLogin_result_shape_witness :
    (completeOidcLogin (fun _ _ => .ok ⟨"tok"⟩)
      [("code", QueryValue.str "c"), ("state", QueryValue.str "s")]
      [(("oidc_s_nonce" : String), ("n" : String)),
       ("oidc_s_redirectUri", "r"), ("oidc_s_codeVerifier", "v"),
       ("oidc_s_clientId", "i"), ("oidc_s_homeserverUrl", "h"),
       ("oidc_s_delegatedAuthConfig", "true")]).1 =
      .ok ⟨"h", none, "tok"⟩ :=
  completeOidcLogin_result_shape _ _ _ "c" "s"
    ⟨"n", "r", "v", "i", "h", none, JsValue.bool true⟩ ⟨"tok"⟩ rfl rfl rfl

theorem getCodeState_spec (q : QueryDict) :
    (∃ c s, qLookup q "code" = some (.str c) ∧ c ≠ "" ∧
            qLookup q "state" = some (.str s) ∧ s ≠ "" ∧
            getCodeAndStateFromQueryParams q = .ok (c, s)) ∨
    getCodeAndStateFromQueryParams q = .error OidcError.InvalidQueryParameters := by
  rcases hc : qLookup q "code" with _ | vc
  · right; simp [getCodeAndStateFromQueryParams, hc]
  · rcases hs : qLookup q "state" with _ | vs
    · right
      rcases vc with sc | l | n <;> simp [getCodeAndStateFromQueryParams, hc, hs]
    · rcases vc with sc | l | n
      · rcases vs with ss | l | n
        · by_cases hce : sc = ""
          · right; simp [getCodeAndStateFromQueryParams, hc, hs, hce]
          · by_cases hse : ss = ""
            · right; simp [getCodeAndStateFromQueryParams, hc, hs, hse]
            · left
              exact ⟨sc, ss, rfl, hce, rfl, hse,
                by simp [getCodeAndStateFromQueryParams, hc, hs, hce, hse]⟩
        · right; simp [getCodeAndStateFromQueryParams, hc, hs]
        · right; simp [getCodeAndStateFromQueryParams, hc, hs]
      · right; simp [getCodeAndStateFromQueryParams, hc, hs]
      · right; simp [getCodeAndStateFromQueryParams, hc, hs]

/-- C5: `completeOidcLogin` fails with the named error
`InvalidQueryParameters` exactly when the `code` or `state` query entry is
absent, empty, or not a string; when both are non-empty strings the flow
proceeds with exactly those two values. -/
theorem completeOidcLogin_invalid_query_iff
    (ex : String → StoredAuthorizationParams → Except Unit BearerTokenResponse)
    (q : QueryDict) (st : Store) :
    ((completeOidcLogin ex q st).1 = .error OidcError.InvalidQueryParameters ↔
      ¬ (∃ c s, qLookup q "code" = some (.str c) ∧ c ≠ "" ∧
                qLookup q "state" = some (.str s) ∧ s ≠ "")) ∧
    (∀ c s, qLookup q "code" = some (.str c) → c ≠ "" →
            qLookup q "state" = some (.str s) → s ≠ "" →
            getCodeAndStateFromQueryParams q = .ok (c, s)) := by
  have hgood : ∀ c s, qLookup q "code" = some (.str c) → c ≠ "" →
      qLookup q "state" = some (.str s) → s ≠ "" →
      getCodeAndStateFromQueryParams q = .ok (c, s) := by
    intro c s hc hcne hs hsne
    simp [getCodeAndStateFromQueryParams, hc, hs, hcne, hsne]
  refine ⟨⟨?_, ?_⟩, hgood⟩
  · intro hres hex
    obtain ⟨c, s, hc, hcne, hs, hsne⟩ := hex
    have hq := hgood c s hc hcne hs hsne
    simp only [completeOidcLogin, hq] at hres
    rcases hr : retrieveAuthorizationParams st s with e | p
    · simp only [hr] at hres
      simp at hres
      exact retrieveAuthorizationParams_ne_iqp st s (by rw [hr, hres])
    · simp only [hr] at hres
      rcases hx : ex c p with e | resp <;> simp [hx] at hres
  · intro hng
    rcases getCodeState_spec q with ⟨c, s, hc, hcne, hs, hsne, _⟩ | hbad
    · exact absurd ⟨c, s, hc, hcne, hs, hsne⟩ hng
    · simp [completeOidcLogin, hbad]

/-- Witness for C5: the extraction conjunct at a concrete query
dictionary. -/
theorem completeOidcLogin_invalid_query_iff_witness :
    getCodeAndStateFromQueryParams
      [("code", QueryValue.str "c"), ("state", QueryValue.str "s")] = .ok ("c", "s") :=
  (completeOidcLogin_invalid_query_iff (fun _ _ => .error ())
      [("code", QueryValue.str "c"), ("state", QueryValue.str "s")] []).2
    "c" "s" rfl (by decide) rfl (by decide)

theorem reqOk_eq_false {o : Option String} :
    reqOk o = false ↔ (o = none ∨ o = some "") := by
  cases o with
  | none => simp [reqOk]
  | some s => simp [reqOk]

theorem validate_spnf_iff (p : UnvalidatedStoredParams) :
    validateStoredAuthorizationParams p = .error OidcError.StoredParamsNotFound ↔
      (reqOk p.nonce = false ∨ reqOk p.redirectUri = false ∨
       reqOk p.codeVerifier = false ∨ reqOk p.clientId = false ∨
       reqOk p.homeserverUrl = false ∨ truthyOpt p.delegatedAuthConfig = false) := by
  unfold validateStoredAuthorizationParams
  cases h1 : reqOk p.nonce <;> cases h2 : reqOk p.redirectUri <;>
    cases h3 : reqOk p.codeVerifier <;> cases h4 : reqOk p.clientId <;>
    cases h5 : reqOk p.homeserverUrl <;> cases h6 : truthyOpt p.delegatedAuthConfig <;>
    simp [h1, h2, h3, h4, h5, h6]

theorem retrieveCore_spnf_iff (a b c d e i cfg : Option String) :
    (retrieveCore a b c d e i cfg = .error OidcError.StoredParamsNotFound ↔
      ((¬ ∃ s, cfg = some s ∧ s ≠ "" ∧ jsonParse s = none) ∧
       ((a = none ∨ a = some "") ∨ (b = none ∨ b = some "") ∨
        (c = none ∨ c = some "") ∨ (d = none ∨ d = some "") ∨
        (e = none ∨ e = some "") ∨ cfg = none ∨ cfg = some "" ∨
        (∃ s v, cfg = some s ∧ jsonParse s = some v ∧ v.truthy = false)))) ∧
    (∀ n r cv ci h cfgS cfgV, a = some n → n ≠ "" → b = some r → r ≠ "" →
      c = some cv → cv ≠ "" → d = some ci → ci ≠ "" → e = some h → h ≠ "" →
      cfg = some cfgS → cfgS ≠ "" → jsonParse cfgS = some cfgV → cfgV.truthy = true →
      retrieveCore a b c d e i cfg = .ok ⟨n, r, cv, ci, h, i, cfgV⟩) := by
  constructor
  · rcases cfg with _ | s
    · simp [retrieveCore, validate_spnf_iff, truthyOpt]
    · by_cases hse : s = ""
      · subst hse
        simp [retrieveCore, validate_spnf_iff, truthyOpt]
      · rcases hp : jsonParse s with _ | v
        · simp [retrieveCore, hse, hp]
        · simp [retrieveCore, hse, hp, validate_spnf_iff, reqOk_eq_false, truthyOpt]
  · intro n r cv ci h cfgS cfgV ha hn hb hr hc hcv hd hci he hh hcfg hcfgne hp ht
    subst ha hb hc hd he hcfg
    simp [retrieveCore, hcfgne, hp, validateStoredAuthorizationParams, reqOk, truthyOpt,
          hn, hr, hcv, hci, hh, ht]

/-- C6 (amended): `retrieveAuthorizationParams` throws the named error
`StoredParamsNotFound` iff the stored configuration entry does not raise a
JSON parse error (it is absent, empty, or well-formed) and either some
required entry (`nonce`, `redirectUri`, `codeVerifier`, `clientId`,
`homeserverUrl`) is absent or empty, or the configuration entry is absent,
empty, or parses to a falsy JSON value; when every required entry is a
non-empty string and the configuration is a non-empty string parsing to a
truthy value, the stored values are returned unchanged (a present,
non-empty, malformed configuration raises the distinct JSON parse error
instead). -/
theorem retrieveAuthorizationParams_spnf_iff (st : Store) (state : String) :
    (retrieveAuthorizationParams st state = .error OidcError.StoredParamsNotFound ↔
      ((¬ ∃ s, getItem st (oidcKey state "delegatedAuthConfig") = some s ∧ s ≠ "" ∧
               jsonParse s = none) ∧
       ((getItem st (oidcKey state "nonce") = none ∨
         getItem st (oidcKey state "nonce") = some "") ∨
        (getItem st (oidcKey state "redirectUri") = none ∨
         getItem st (oidcKey state "redirectUri") = some "") ∨
        (getItem st (oidcKey state "codeVerifier") = none ∨
         getItem st (oidcKey state "codeVerifier") = some "") ∨
        (getItem st (oidcKey state "clientId") = none ∨
         getItem st (oidcKey state "clientId") = some "") ∨
        (getItem st (oidcKey state "homeserverUrl") = none ∨
         getItem st (oidcKey state "homeserverUrl") = some "") ∨
        getItem st (oidcKey state "delegatedAuthConfig") = none ∨
        getItem st (oidcKey state "delegatedAuthConfig") = some "" ∨
        (∃ s v, getItem st (oidcKey state "delegatedAuthConfig") = some s ∧
                jsonParse s = some v ∧ v.truthy = false)))) ∧
    (∀ n r cv ci h cfgS cfgV,
      getItem st (oidcKey state "nonce") = some n → n ≠ "" →
      getItem st (oidcKey state "redirectUri") = some r → r ≠ "" →
      getItem st (oidcKey state "codeVerifier") = some cv → cv ≠ "" →
      getItem st (oidcKey state "clientId") = some ci → ci ≠ "" →
      getItem st (oidcKey state "homeserverUrl") = some h → h ≠ "" →
      getItem st (oidcKey state "delegatedAuthConfig") = some cfgS → cfgS ≠ "" →
      jsonParse cfgS = some cfgV → cfgV.truthy = true →
      retrieveAuthorizationParams st state =
        .ok ⟨n, r, cv, ci, h, getItem st (oidcKey state "identityServerUrl"), cfgV⟩) :=
  retrieveCore_spnf_iff
    (getItem st (oidcKey state "nonce"))
    (getItem st (oidcKey state "redirectUri"))
    (getItem st (oidcKey state "codeVerifier"))
    (getItem st (oidcKey state "clientId"))
    (getItem st (oidcKey state "homeserverUrl"))
    (getItem st (oidcKey state "identityServerUrl"))
    (getItem st (oidcKey state "delegatedAuthConfig"))

/-- Witness for C6: a concrete store on which retrieval succeeds and
returns the stored values unchanged. -/
theorem retrieveAuthorizationParams_spnf_iff_witness :
    retrieveAuthorizationParams
      [(("oidc_s_nonce" : String), ("n" : String)),
       ("oidc_s_redirectUri", "r"), ("oidc_s_codeVerifier", "v"),
       ("oidc_s_clientId", "i"), ("oidc_s_homeserverUrl", "h"),
       ("oidc_s_delegatedAuthConfig", "true")] "s" =
      .ok ⟨"n", "r", "v", "i", "h", none, JsValue.bool true⟩ :=
  (retrieveAuthorizationParams_spnf_iff _ "s").2 "n" "r" "v" "i" "h" "true"
    (JsValue.bool true) rfl (by decide) rfl (by decide) rfl (by decide) rfl
    (by decide) rfl (by decide) rfl (by decide) rfl rfl

/-- Counterexample to C6 as stated: with every required entry present and
non-empty and the configuration entry present but equal to the empty
string, retrieval still throws `StoredParamsNotFound`, although no
required entry is absent or malformed and the configuration entry is not
absent. -/
theorem retrieveAuthorizationParams_spnf_iff_counterexample :
    retrieveAuthorizationParams
      [(("oidc_s_nonce" : String), ("n" : String)),
       ("oidc_s_redirectUri", "r"), ("oidc_s_codeVerifier", "v"),
       ("oidc_s_clientId", "i"), ("oidc_s_homeserverUrl", "h"),
       ("oidc_s_delegatedAuthConfig", "")] "s" =
      .error OidcError.StoredParamsNotFound ∧
    ¬ ((getItem [(("oidc_s_nonce" : String), ("n" : String)),
         ("oidc_s_redirectUri", "r"), ("oidc_s_codeVerifier", "v"),
         ("oidc_s_clientId", "i"), ("oidc_s_homeserverUrl", "h"),
         ("oidc_s_delegatedAuthConfig", "")] (oidcKey "s" "nonce") = none ∨
        getItem [(("oidc_s_nonce" : String), ("n" : String)),
         ("oidc_s_redirectUri", "r"), ("oidc_s_codeVerifier", "v"),
         ("oidc_s_clientId", "i"), ("oidc_s_homeserverUrl", "h"),
         ("oidc_s_delegatedAuthConfig", "")] (oidcKey "s" "nonce") = some "" ∨
        getItem [(("oidc_s_nonce" : String), ("n" : String)),
         ("oidc_s_redirectUri", "r"), ("oidc_s_codeVerifier", "v"),
         ("oidc_s_clientId", "i"), ("oidc_s_homeserverUrl", "h"),
         ("oidc_s_delegatedAuthConfig", "")] (oidcKey "s" "redirectUri") = none ∨
        getItem [(("oidc_s_nonce" : String), ("n" : String)),
         ("oidc_s_redirectUri", "r"), ("oidc_s_codeVerifier", "v"),
         ("oidc_s_clientId", "i"), ("oidc_s_homeserverUrl", "h"),
         ("oidc_s_delegatedAuthConfig", "")] (oidcKey "s" "redirectUri") = some "" ∨
        getItem [(("oidc_s_nonce" : String), ("n" : String)),
         ("oidc_s_redirectUri", "r"), ("oidc_s_codeVerifier", "v"),
         ("oidc_s_clientId", "i"), ("oidc_s_homeserverUrl", "h"),
         ("oidc_s_delegatedAuthConfig", "")] (oidcKey "s" "codeVerifier") = none ∨
        getItem [(("oidc_s_nonce" : String), ("n" : String)),
         ("oidc_s_redirectUri", "r"), ("oidc_s_codeVerifier", "v"),
         ("oidc_s_clientId", "i"), ("oidc_s_homeserverUrl", "h"),
         ("oidc_s_delegatedAuthConfig", "")] (oidcKey "s" "codeVerifier") = some "" ∨
        getItem [(("oidc_s_nonce" : String), ("n" : String)),
         ("oidc_s_redirectUri", "r"), ("oidc_s_codeVerifier", "v"),
         ("oidc_s_clientId", "i"), ("oidc_s_homeserverUrl", "h"),
         ("oidc_s_delegatedAuthConfig", "")] (oidcKey "s" "clientId") = none ∨
        getItem [(("oidc_s_nonce" : String), ("n" : String)),
         ("oidc_s_redirectUri", "r"), ("oidc_s_codeVerifier", "v"),
         ("oidc_s_clientId", "i"), ("oidc_s_homeserverUrl", "h"),
         ("oidc_s_delegatedAuthConfig", "")] (oidcKey "s" "clientId") = some "" ∨
        getItem [(("oidc_s_nonce" : String), ("n" : String)),
         ("oidc_s_redirectUri", "r"), ("oidc_s_codeVerifier", "v"),
         ("oidc_s_clientId", "i"), ("oidc_s_homeserverUrl", "h"),
         ("oidc_s_delegatedAuthConfig", "")] (oidcKey "s" "homeserverUrl") = none ∨
        getItem [(("oidc_s_nonce" : String), ("n" : String)),
         ("oidc_s_redirectUri", "r"), ("oidc_s_codeVerifier", "v"),
         ("oidc_s_clientId", "i"), ("oidc_s_homeserverUrl", "h"),
         ("oidc_s_delegatedAuthConfig", "")] (oidcKey "s" "homeserverUrl") = some "" ∨
        getItem [(("oidc_s_nonce" : String), ("n" : String)),
         ("oidc_s_redirectUri", "r"), ("oidc_s_codeVerifier", "v"),
         ("oidc_s_clientId", "i"), ("oidc_s_homeserverUrl", "h"),
         ("oidc_s_delegatedAuthConfig", "")] (oidcKey "s" "delegatedAuthConfig") = none)) :=
  ⟨rfl, by decide⟩

theorem retrieveCore_result_of_bad {a b c d e i cfg : Option String}
    (h : reqOk a = false ∨ reqOk b = false ∨ reqOk c = false ∨
         reqOk d = false ∨ reqOk e = false) :
    retrieveCore a b c d e i cfg = badResult cfg := by
  have hbad : ∀ v : Option JsValue,
      validateStoredAuthorizationParams ⟨a, b, c, d, e, i, v⟩ =
        .error OidcError.StoredParamsNotFound := by
    intro v
    apply validateStoredAuthorizationParams_bad
    tauto
  rcases cfg with _ | s
  · simpa [retrieveCore, badResult] using hbad none
  · by_cases hse : s = ""
    · subst hse
      simpa [retrieveCore, badResult] using hbad none
    · rcases hp : jsonParse s with _ | v
      · simp [retrieveCore, badResult, hse, hp]
      · simpa [retrieveCore, badResult, hse, hp] using hbad (some v)

theorem badResult_of_well {cfg : Option String} (hw : CfgWell cfg) :
    badResult cfg = .error OidcError.StoredParamsNotFound := by
  rcases cfg with _ | s
  · rfl
  · have hw2 : s = "" ∨ jsonParse s ≠ none := hw
    rcases hw2 with h | h
    · simp [badResult, h]
    · rcases hp : jsonParse s with _ | v
      · exact absurd hp h
      · by_cases hse : s = ""
        · simp [badResult, hse]
        · simp [badResult, hse, hp]

/-- C9 (amended): an empty string stored under any required key is treated
exactly like an absent key: retrieval returns the identical result in both
cases, and whenever the stored configuration entry is absent, empty, or
well-formed JSON (so that validation is reached), that result is the named
error `StoredParamsNotFound`; if the configuration entry is present,
non-empty and malformed, the identical result is instead a JSON parse
error. -/
theorem retrieve_empty_required_like_absent (st : Store) (state f : String)
    (hf : f = "nonce" ∨ f = "redirectUri" ∨ f = "codeVerifier" ∨
          f = "clientId" ∨ f = "homeserverUrl") :
    retrieveAuthorizationParams (setItem st (oidcKey state f) "") state =
      retrieveAuthorizationParams (removeItem st (oidcKey state f)) state ∧
    (CfgWell (getItem st (oidcKey state "delegatedAuthConfig")) →
     retrieveAuthorizationParams (setItem st (oidcKey state f) "") state =
       .error OidcError.StoredParamsNotFound) := by
  rcases hf with hf | hf | hf | hf | hf <;> subst hf
  · have hset : retrieveAuthorizationParams (setItem st (oidcKey state "nonce") "") state =
        badResult (getItem st (oidcKey state "delegatedAuthConfig")) := by
      unfold retrieveAuthorizationParams
      rw [getItem_setItem_self,
          getItem_setItem_ne st "" (oidcKey_ne_of_length state (by decide) : oidcKey state "nonce" ≠ oidcKey state "redirectUri"),
          getItem_setItem_ne st "" (oidcKey_ne_of_length state (by decide) : oidcKey state "nonce" ≠ oidcKey state "codeVerifier"),
          getItem_setItem_ne st "" (oidcKey_ne_of_length state (by decide) : oidcKey state "nonce" ≠ oidcKey state "clientId"),
          getItem_setItem_ne st "" (oidcKey_ne_of_length state (by decide) : oidcKey state "nonce" ≠ oidcKey state "homeserverUrl"),
          getItem_setItem_ne st "" (oidcKey_ne_of_length state (by decide) : oidcKey state "nonce" ≠ oidcKey state "identityServerUrl"),
          getItem_setItem_ne st "" (oidcKey_ne_of_length state (by decide) : oidcKey state "nonce" ≠ oidcKey state "delegatedAuthConfig")]
      exact retrieveCore_result_of_bad (Or.inl (rfl : reqOk (some "") = false))
    have hrem : retrieveAuthorizationParams (removeItem st (oidcKey state "nonce")) state =
        badResult (getItem st (oidcKey state "delegatedAuthConfig")) := by
      unfold retrieveAuthorizationParams
      rw [getItem_removeItem_self,
          getItem_removeItem_ne st (oidcKey_ne_of_length state (by decide) : oidcKey state "nonce" ≠ oidcKey state "redirectUri"),
          getItem_removeItem_ne st (oidcKey_ne_of_length state (by decide) : oidcKey state "nonce" ≠ oidcKey state "codeVerifier"),
          getItem_removeItem_ne st (oidcKey_ne_of_length state (by decide) : oidcKey state "nonce" ≠ oidcKey state "clientId"),
          getItem_removeItem_ne st (oidcKey_ne_of_length state (by decide) : oidcKey state "nonce" ≠ oidcKey state "homeserverUrl"),
          getItem_removeItem_ne st (oidcKey_ne_of_length state (by decide) : oidcKey state "nonce" ≠ oidcKey state "identityServerUrl"),
          getItem_removeItem_ne st (oidcKey_ne_of_length state (by decide) : oidcKey state "nonce" ≠ oidcKey state "delegatedAuthConfig")]
      exact retrieveCore_result_of_bad (Or.inl (rfl : reqOk none = false))
    exact ⟨hset.trans hrem.symm, fun hw => hset.trans (badResult_of_well hw)⟩
  · have hset : retrieveAuthorizationParams (setItem st (oidcKey state "redirectUri") "") state =
        badResult (getItem st (oidcKey state "delegatedAuthConfig")) := by
      unfold retrieveAuthorizationParams
      rw [getItem_setItem_self,
          getItem_setItem_ne st "" (oidcKey_ne_of_length state (by decide) : oidcKey state "redirectUri" ≠ oidcKey state "nonce"),
          getItem_setItem_ne st "" (oidcKey_ne_of_length state (by decide) : oidcKey state "redirectUri" ≠ oidcKey state "codeVerifier"),
          getItem_setItem_ne st "" (oidcKey_ne_of_length state (by decide) : oidcKey state "redirectUri" ≠ oidcKey state "clientId"),
          getItem_setItem_ne st "" (oidcKey_ne_of_length state (by decide) : oidcKey state "redirectUri" ≠ oidcKey state "homeserverUrl"),
          getItem_setItem_ne st "" (oidcKey_ne_of_length state (by decide) : oidcKey state "redirectUri" ≠ oidcKey state "identityServerUrl"),
          getItem_setItem_ne st "" (oidcKey_ne_of_length state (by decide) : oidcKey state "redirectUri" ≠ oidcKey state "delegatedAuthConfig")]
      exact retrieveCore_result_of_bad (Or.inr (Or.inl (rfl : reqOk (some "") = false)))
    have hrem : retrieveAuthorizationParams (removeItem st (oidcKey state "redirectUri")) state =
        badResult (getItem st (oidcKey state "delegatedAuthConfig")) := by
      unfold retrieveAuthorizationParams
      rw [getItem_removeItem_self,
          getItem_removeItem_ne st (oidcKey_ne_of_length state (by decide) : oidcKey state "redirectUri" ≠ oidcKey state "nonce"),
          getItem_removeItem_ne st (oidcKey_ne_of_length state (by decide) : oidcKey state "redirectUri" ≠ oidcKey state "codeVerifier"),
          getItem_removeItem_ne st (oidcKey_ne_of_length state (by decide) : oidcKey state "redirectUri" ≠ oidcKey state "clientId"),
          getItem_removeItem_ne st (oidcKey_ne_of_length state (by decide) : oidcKey state "redirectUri" ≠ oidcKey state "homeserverUrl"),
          getItem_removeItem_ne st (oidcKey_ne_of_length state (by decide) : oidcKey state "redirectUri" ≠ oidcKey state "identityServerUrl"),
          getItem_removeItem_ne st (oidcKey_ne_of_length state (by decide) : oidcKey state "redirectUri" ≠ oidcKey state "delegatedAuthConfig")]
      exact retrieveCore_result_of_bad (Or.inr (Or.inl (rfl : reqOk none = false)))
    exact ⟨hset.trans hrem.symm, fun hw => hset.trans (badResult_of_well hw)⟩
  · have hset : retrieveAuthorizationParams (setItem st (oidcKey state "codeVerifier") "") state =
        badResult (getItem st (oidcKey state "delegatedAuthConfig")) := by
      unfold retrieveAuthorizationParams
      rw [getItem_setItem_self,
          getItem_setItem_ne st "" (oidcKey_ne_of_length state (by decide) : oidcKey state "codeVerifier" ≠ oidcKey state "nonce"),
          getItem_setItem_ne st "" (oidcKey_ne_of_length state (by decide) : oidcKey state "codeVerifier" ≠ oidcKey state "redirectUri"),
          getItem_setItem_ne st "" (oidcKey_ne_of_length state (by decide) : oidcKey state "codeVerifier" ≠ oidcKey state "clientId"),
          getItem_setItem_ne st "" (oidcKey_ne_of_length state (by decide) : oidcKey state "codeVerifier" ≠ oidcKey state "homeserverUrl"),
          getItem_setItem_ne st "" (oidcKey_ne_of_length state (by decide) : oidcKey state "codeVerifier" ≠ oidcKey state "identityServerUrl"),
          getItem_setItem_ne st "" (oidcKey_ne_of_length state (by decide) : oidcKey state "codeVerifier" ≠ oidcKey state "delegatedAuthConfig")]
      exact retrieveCore_result_of_bad (Or.inr (Or.inr (Or.inl (rfl : reqOk (some "") = false))))
    have hrem : retrieveAuthorizationParams (removeItem st (oidcKey state "codeVerifier")) state =
        badResult (getItem st (oidcKey state "delegatedAuthConfig")) := by
      unfold retrieveAuthorizationParams
      rw [getItem_removeItem_self,
          getItem_removeItem_ne st (oidcKey_ne_of_length state (by decide) : oidcKey state "codeVerifier" ≠ oidcKey state "nonce"),
          getItem_removeItem_ne st (oidcKey_ne_of_length state (by decide) : oidcKey state "codeVerifier" ≠ oidcKey state "redirectUri"),
          getItem_removeItem_ne st (oidcKey_ne_of_length state (by decide) : oidcKey state "codeVerifier" ≠ oidcKey state "clientId"),
          getItem_removeItem_ne st (oidcKey_ne_of_length state (by decide) : oidcKey state "codeVerifier" ≠ oidcKey state "homeserverUrl"),
          getItem_removeItem_ne st (oidcKey_ne_of_length state (by decide) : oidcKey state "codeVerifier" ≠ oidcKey state "identityServerUrl"),
          getItem_removeItem_ne st (oidcKey_ne_of_length state (by decide) : oidcKey state "codeVerifier" ≠ oidcKey state "delegatedAuthConfig")]
      exact retrieveCore_result_of_bad (Or.inr (Or.inr (Or.inl (rfl : reqOk none = false))))
    exact ⟨hset.trans hrem.symm, fun hw => hset.trans (badResult_of_well hw)⟩
  · have hset : retrieveAuthorizationParams (setItem st (oidcKey state "clientId") "") state =
        badResult (getItem st (oidcKey state "delegatedAuthConfig")) := by
      unfold retrieveAuthorizationParams
      rw [getItem_setItem_self,
          getItem_setItem_ne st "" (oidcKey_ne_of_length state (by decide) : oidcKey state "clientId" ≠ oidcKey state "nonce"),
          getItem_setItem_ne st "" (oidcKey_ne_of_length state (by decide) : oidcKey state "clientId" ≠ oidcKey state "redirectUri"),
          getItem_setItem_ne st "" (oidcKey_ne_of_length state (by decide) : oidcKey state "clientId" ≠ oidcKey state "codeVerifier"),
          getItem_setItem_ne st "" (oidcKey_ne_of_length state (by decide) : oidcKey state "clientId" ≠ oidcKey state "homeserverUrl"),
          getItem_setItem_ne st "" (oidcKey_ne_of_length state (by decide) : oidcKey state "clientId" ≠ oidcKey state "identityServerUrl"),
          getItem_setItem_ne st "" (oidcKey_ne_of_length state (by decide) : oidcKey state "clientId" ≠ oidcKey state "delegatedAuthConfig")]
      exact retrieveCore_result_of_bad (Or.inr (Or.inr (Or.inr (Or.inl (rfl : reqOk (some "") = false)))))
    have hrem : retrieveAuthorizationParams (removeItem st (oidcKey state "clientId")) state =
        badResult (getItem st (oidcKey state "delegatedAuthConfig")) := by
      unfold retrieveAuthorizationParams
      rw [getItem_removeItem_self,
          getItem_removeItem_ne st (oidcKey_ne_of_length state (by decide) : oidcKey state "clientId" ≠ oidcKey state "nonce"),
          getItem_removeItem_ne st (oidcKey_ne_of_length state (by decide) : oidcKey state "clientId" ≠ oidcKey state "redirectUri"),
          getItem_removeItem_ne st (oidcKey_ne_of_length state (by decide) : oidcKey state "clientId" ≠ oidcKey state "codeVerifier"),
          getItem_removeItem_ne st (oidcKey_ne_of_length state (by decide) : oidcKey state "clientId" ≠ oidcKey state "homeserverUrl"),
          getItem_removeItem_ne st (oidcKey_ne_of_length state (by decide) : oidcKey state "clientId" ≠ oidcKey state "identityServerUrl"),
          getItem_removeItem_ne st (oidcKey_ne_of_length state (by decide) : oidcKey state "clientId" ≠ oidcKey state "delegatedAuthConfig")]
      exact retrieveCore_result_of_bad (Or.inr (Or.inr (Or.inr (Or.inl (rfl : reqOk none = false)))))
    exact ⟨hset.trans hrem.symm, fun hw => hset.trans (badResult_of_well hw)⟩
  · have hset : retrieveAuthorizationParams (setItem st (oidcKey state "homeserverUrl") "") state =
        badResult (getItem st (oidcKey state "delegatedAuthConfig")) := by
      unfold retrieveAuthorizationParams
      rw [getItem_setItem_self,
          getItem_setItem_ne st "" (oidcKey_ne_of_length state (by decide) : oidcKey state "homeserverUrl" ≠ oidcKey state "nonce"),
          getItem_setItem_ne st "" (oidcKey_ne_of_length state (by decide) : oidcKey state "homeserverUrl" ≠ oidcKey state "redirectUri"),
          getItem_setItem_ne st "" (oidcKey_ne_of_length state (by decide) : oidcKey state "homeserverUrl" ≠ oidcKey state "codeVerifier"),
          getItem_setItem_ne st "" (oidcKey_ne_of_length state (by decide) : oidcKey state "homeserverUrl" ≠ oidcKey state "clientId"),
          getItem_setItem_ne st "" (oidcKey_ne_of_length state (by decide) : oidcKey state "homeserverUrl" ≠ oidcKey state "identityServerUrl"),
          getItem_setItem_ne st "" (oidcKey_ne_of_length state (by decide) : oidcKey state "homeserverUrl" ≠ oidcKey state "delegatedAuthConfig")]
      exact retrieveCore_result_of_bad (Or.inr (Or.inr (Or.inr (Or.inr (rfl : reqOk (some "") = false)))))
    have hrem : retrieveAuthorizationParams (removeItem st (oidcKey state "homeserverUrl")) state =
        badResult (getItem st (oidcKey state "delegatedAuthConfig")) := by
      unfold retrieveAuthorizationParams
      rw [getItem_removeItem_self,
          getItem_removeItem_ne st (oidcKey_ne_of_length state (by decide) : oidcKey state "homeserverUrl" ≠ oidcKey state "nonce"),
          getItem_removeItem_ne st (oidcKey_ne_of_length state (by decide) : oidcKey state "homeserverUrl" ≠ oidcKey state "redirectUri"),
          getItem_removeItem_ne st (oidcKey_ne_of_length state (by decide) : oidcKey state "homeserverUrl" ≠ oidcKey state "codeVerifier"),
          getItem_removeItem_ne st (oidcKey_ne_of_length state (by decide) : oidcKey state "homeserverUrl" ≠ oidcKey state "clientId"),
          getItem_removeItem_ne st (oidcKey_ne_of_length state (by decide) : oidcKey state "homeserverUrl" ≠ oidcKey state "identityServerUrl"),
          getItem_removeItem_ne st (oidcKey_ne_of_length state (by decide) : oidcKey state "homeserverUrl" ≠ oidcKey state "delegatedAuthConfig")]
      exact retrieveCore_result_of_bad (Or.inr (Or.inr (Or.inr (Or.inr (rfl : reqOk none = false)))))
    exact ⟨hset.trans hrem.symm, fun hw => hset.trans (badResult_of_well hw)⟩

/-- Witness for C9 at the empty store and the `nonce` key. -/
theorem retrieve_empty_required_like_absent_witness :
    retrieveAuthorizationParams (setItem [] (oidcKey "s" "nonce") "") "s" =
      .error OidcError.StoredParamsNotFound :=
  (retrieve_empty_required_like_absent [] "s" "nonce" (Or.inl rfl)).2 trivial

/-- Counterexample to C9 as stated: with `nonce` stored as the empty
string but the configuration entry malformed, retrieval raises the JSON
parse error, not `StoredParamsNotFound`. -/
theorem retrieve_empty_required_spnf_counterexample :
    getItem
      [(("oidc_s_nonce" : String), ("" : String)),
       ("oidc_s_redirectUri", "r"), ("oidc_s_codeVerifier", "v"),
       ("oidc_s_clientId", "i"), ("oidc_s_homeserverUrl", "h"),
       ("oidc_s_delegatedAuthConfig", "[")] (oidcKey "s" "nonce") = some "" ∧
    retrieveAuthorizationParams
      [(("oidc_s_nonce" : String), ("" : String)),
       ("oidc_s_redirectUri", "r"), ("oidc_s_codeVerifier", "v"),
       ("oidc_s_clientId", "i"), ("oidc_s_homeserverUrl", "h"),
       ("oidc_s_delegatedAuthConfig", "[")] "s" = .error OidcError.JsonError ∧
    retrieveAuthorizationParams
      [(("oidc_s_nonce" : String), ("" : String)),
       ("oidc_s_redirectUri", "r"), ("oidc_s_codeVerifier", "v"),
       ("oidc_s_clientId", "i"), ("oidc_s_homeserverUrl", "h"),
       ("oidc_s_delegatedAuthConfig", "[")] "s" ≠
      .error OidcError.StoredParamsNotFound :=
  ⟨rfl, rfl, by
    rw [show retrieveAuthorizationParams
      [(("oidc_s_nonce" : String), ("" : String)),
       ("oidc_s_redirectUri", "r"), ("oidc_s_codeVerifier", "v"),
       ("oidc_s_clientId", "i"), ("oidc_s_homeserverUrl", "h"),
       ("oidc_s_delegatedAuthConfig", "[")] "s" = .error OidcError.JsonError from rfl]
    simp⟩

/-- C7 (amended): storing authorization parameters with non-empty required
fields and a configuration surviving the JSON round-trip, then retrieving
by the same state, succeeds and returns the same nonce, redirectUri,
codeVerifier, clientId and homeserverUrl; `identityServerUrl` equals the
supplied value when a non-empty one was supplied, and otherwise the write
is skipped, so retrieval returns whatever the storage previously held
under that key (undefined on a fresh storage). -/
theorem store_retrieve_roundtrip (st : Store) (ap : AuthorizationParams)
    (cfg : ValidatedDelegatedAuthConfig) (clientId homeserverUrl : String)
    (identityServerUrl : Option String)
    (h1 : ap.nonce ≠ "") (h2 : ap.redirectUri ≠ "") (h3 : ap.codeVerifier ≠ "")
    (h4 : clientId ≠ "") (h5 : homeserverUrl ≠ "")
    (h6 : jsonParse (jsonStringify (configToJs cfg)) = some (configToJs cfg)) :
    retrieveAuthorizationParams
        (storeAuthorizationParams ap cfg clientId homeserverUrl identityServerUrl st)
        ap.state =
      .ok ⟨ap.nonce, ap.redirectUri, ap.codeVerifier, clientId, homeserverUrl,
           (match identityServerUrl with
            | some u =>
              if u = "" then getItem st (oidcKey ap.state "identityServerUrl") else some u
            | none => getItem st (oidcKey ap.state "identityServerUrl")),
           configToJs cfg⟩ := by
  have hne : jsonStringify (configToJs cfg) ≠ "" := by
    intro h0
    rw [h0] at h6
    rw [show jsonParse "" = none from rfl] at h6
    exact Option.noConfusion h6
  have hbase : retrieveAuthorizationParams
      (storeAuthorizationParams ap cfg clientId homeserverUrl none st) ap.state =
      .ok ⟨ap.nonce, ap.redirectUri, ap.codeVerifier, clientId, homeserverUrl,
           getItem st (oidcKey ap.state "identityServerUrl"), configToJs cfg⟩ := by
    unfold retrieveAuthorizationParams
    simp only [storeAuthorizationParams]
    rw [getItem_setItem_ne _ _ (oidcKey_ne_of_length ap.state (by decide) : oidcKey ap.state "homeserverUrl" ≠ oidcKey ap.state "nonce"),
        getItem_setItem_ne _ _ (oidcKey_ne_of_length ap.state (by decide) : oidcKey ap.state "delegatedAuthConfig" ≠ oidcKey ap.state "nonce"),
        getItem_setItem_ne _ _ (oidcKey_ne_of_length ap.state (by decide) : oidcKey ap.state "clientId" ≠ oidcKey ap.state "nonce"),
        getItem_setItem_ne _ _ (oidcKey_ne_of_length ap.state (by decide) : oidcKey ap.state "codeVerifier" ≠ oidcKey ap.state "nonce"),
        getItem_setItem_ne _ _ (oidcKey_ne_of_length ap.state (by decide) : oidcKey ap.state "redirectUri" ≠ oidcKey ap.state "nonce"),
        getItem_setItem_self,
        getItem_setItem_ne _ _ (oidcKey_ne_of_length ap.state (by decide) : oidcKey ap.state "homeserverUrl" ≠ oidcKey ap.state "redirectUri"),
        getItem_setItem_ne _ _ (oidcKey_ne_of_length ap.state (by decide) : oidcKey ap.state "delegatedAuthConfig" ≠ oidcKey ap.state "redirectUri"),
        getItem_setItem_ne _ _ (oidcKey_ne_of_length ap.state (by decide) : oidcKey ap.state "clientId" ≠ oidcKey ap.state "redirectUri"),
        getItem_setItem_ne _ _ (oidcKey_ne_of_length ap.state (by decide) : oidcKey ap.state "codeVerifier" ≠ oidcKey ap.state "redirectUri"),
        getItem_setItem_self,
        getItem_setItem_ne _ _ (oidcKey_ne_of_length ap.state (by decide) : oidcKey ap.state "homeserverUrl" ≠ oidcKey ap.state "codeVerifier"),
        getItem_setItem_ne _ _ (oidcKey_ne_of_length ap.state (by decide) : oidcKey ap.state "delegatedAuthConfig" ≠ oidcKey ap.state "codeVerifier"),
        getItem_setItem_ne _ _ (oidcKey_ne_of_length ap.state (by decide) : oidcKey ap.state "clientId" ≠ oidcKey ap.state "codeVerifier"),
        getItem_setItem_self,
        getItem_setItem_ne _ _ (oidcKey_ne_of_length ap.state (by decide) : oidcKey ap.state "homeserverUrl" ≠ oidcKey ap.state "clientId"),
        getItem_setItem_ne _ _ (oidcKey_ne_of_length ap.state (by decide) : oidcKey ap.state "delegatedAuthConfig" ≠ oidcKey ap.state "clientId"),
        getItem_setItem_self,
        getItem_setItem_self,
        getItem_setItem_ne _ _ (oidcKey_ne_of_length ap.state (by decide) : oidcKey ap.state "homeserverUrl" ≠ oidcKey ap.state "identityServerUrl"),
        getItem_setItem_ne _ _ (oidcKey_ne_of_length ap.state (by decide) : oidcKey ap.state "delegatedAuthConfig" ≠ oidcKey ap.state "identityServerUrl"),
        getItem_setItem_ne _ _ (oidcKey_ne_of_length ap.state (by decide) : oidcKey ap.state "clientId" ≠ oidcKey ap.state "identityServerUrl"),
        getItem_setItem_ne _ _ (oidcKey_ne_of_length ap.state (by decide) : oidcKey ap.state "codeVerifier" ≠ oidcKey ap.state "identityServerUrl"),
        getItem_setItem_ne _ _ (oidcKey_ne_of_length ap.state (by decide) : oidcKey ap.state "redirectUri" ≠ oidcKey ap.state "identityServerUrl"),
        getItem_setItem_ne _ _ (oidcKey_ne_of_length ap.state (by decide) : oidcKey ap.state "nonce" ≠ oidcKey ap.state "identityServerUrl"),
        getItem_setItem_ne _ _ (oidcKey_ne_of_length ap.state (by decide) : oidcKey ap.state "homeserverUrl" ≠ oidcKey ap.state "delegatedAuthConfig"),
        getItem_setItem_self]
    exact (retrieveCore_spnf_iff _ _ _ _ _ _ _).2 ap.nonce ap.redirectUri ap.codeVerifier
      clientId homeserverUrl (jsonStringify (configToJs cfg)) (configToJs cfg)
      rfl h1 rfl h2 rfl h3 rfl h4 rfl h5 rfl hne h6 rfl
  rcases identityServerUrl with _ | u
  · exact hbase
  · by_cases hu : u = ""
    · subst hu
      exact hbase
    · have hext : retrieveAuthorizationParams
          (setItem (storeAuthorizationParams ap cfg clientId homeserverUrl none st)
            (oidcKey ap.state "identityServerUrl") u) ap.state =
          .ok ⟨ap.nonce, ap.redirectUri, ap.codeVerifier, clientId, homeserverUrl,
               some u, configToJs cfg⟩ := by
        unfold retrieveAuthorizationParams
        conv in storeAuthorizationParams ap cfg clientId homeserverUrl none st =>
          simp only [storeAuthorizationParams]
        simp only [storeAuthorizationParams]
        rw [getItem_setItem_ne _ _ (oidcKey_ne_of_length ap.state (by decide) : oidcKey ap.state "identityServerUrl" ≠ oidcKey ap.state "nonce"),
        getItem_setItem_ne _ _ (oidcKey_ne_of_length ap.state (by decide) : oidcKey ap.state "identityServerUrl" ≠ oidcKey ap.state "redirectUri"),
        getItem_setItem_ne _ _ (oidcKey_ne_of_length ap.state (by decide) : oidcKey ap.state "identityServerUrl" ≠ oidcKey ap.state "codeVerifier"),
        getItem_setItem_ne _ _ (oidcKey_ne_of_length ap.state (by decide) : oidcKey ap.state "identityServerUrl" ≠ oidcKey ap.state "clientId"),
        getItem_setItem_ne _ _ (oidcKey_ne_of_length ap.state (by decide) : oidcKey ap.state "identityServerUrl" ≠ oidcKey ap.state "homeserverUrl"),
        getItem_setItem_self,
        getItem_setItem_ne _ _ (oidcKey_ne_of_length ap.state (by decide) : oidcKey ap.state "identityServerUrl" ≠ oidcKey ap.state "delegatedAuthConfig")]
        rw [getItem_setItem_ne _ _ (oidcKey_ne_of_length ap.state (by decide) : oidcKey ap.state "homeserverUrl" ≠ oidcKey ap.state "nonce"),
        getItem_setItem_ne _ _ (oidcKey_ne_of_length ap.state (by decide) : oidcKey ap.state "delegatedAuthConfig" ≠ oidcKey ap.state "nonce"),
        getItem_setItem_ne _ _ (oidcKey_ne_of_length ap.state (by decide) : oidcKey ap.state "clientId" ≠ oidcKey ap.state "nonce"),
        getItem_setItem_ne _ _ (oidcKey_ne_of_length ap.state (by decide) : oidcKey ap.state "codeVerifier" ≠ oidcKey ap.state "nonce"),
        getItem_setItem_ne _ _ (oidcKey_ne_of_length ap.state (by decide) : oidcKey ap.state "redirectUri" ≠ oidcKey ap.state "nonce"),
        getItem_setItem_self,
        getItem_setItem_ne _ _ (oidcKey_ne_of_length ap.state (by decide) : oidcKey ap.state "homeserverUrl" ≠ oidcKey ap.state "redirectUri"),
        getItem_setItem_ne _ _ (oidcKey_ne_of_length ap.state (by decide) : oidcKey ap.state "delegatedAuthConfig" ≠ oidcKey ap.state "redirectUri"),
        getItem_setItem_ne _ _ (oidcKey_ne_of_length ap.state (by decide) : oidcKey ap.state "clientId" ≠ oidcKey ap.state "redirectUri"),
        getItem_setItem_ne _ _ (oidcKey_ne_of_length ap.state (by decide) : oidcKey ap.state "codeVerifier" ≠ oidcKey ap.state "redirectUri"),
        getItem_setItem_self,
        getItem_setItem_ne _ _ (oidcKey_ne_of_length ap.state (by decide) : oidcKey ap.state "homeserverUrl" ≠ oidcKey ap.state "codeVerifier"),
        getItem_setItem_ne _ _ (oidcKey_ne_of_length ap.state (by decide) : oidcKey ap.state "delegatedAuthConfig" ≠ oidcKey ap.state "codeVerifier"),
        getItem_setItem_ne _ _ (oidcKey_ne_of_length ap.state (by decide) : oidcKey ap.state "clientId" ≠ oidcKey ap.state "codeVerifier"),
        getItem_setItem_self,
        getItem_setItem_ne _ _ (oidcKey_ne_of_length ap.state (by decide) : oidcKey ap.state "homeserverUrl" ≠ oidcKey ap.state "clientId"),
        getItem_setItem_ne _ _ (oidcKey_ne_of_length ap.state (by decide) : oidcKey ap.state "delegatedAuthConfig" ≠ oidcKey ap.state "clientId"),
        getItem_setItem_self,
        getItem_setItem_self,
        getItem_setItem_ne _ _ (oidcKey_ne_of_length ap.state (by decide) : oidcKey ap.state "homeserverUrl" ≠ oidcKey ap.state "delegatedAuthConfig"),
        getItem_setItem_self]
        exact (retrieveCore_spnf_iff _ _ _ _ _ _ _).2 ap.nonce ap.redirectUri ap.codeVerifier
          clientId homeserverUrl (jsonStringify (configToJs cfg)) (configToJs cfg)
          rfl h1 rfl h2 rfl h3 rfl h4 rfl h5 rfl hne h6 rfl
      have hstore : storeAuthorizationParams ap cfg clientId homeserverUrl (some u) st =
          setItem (storeAuthorizationParams ap cfg clientId homeserverUrl none st)
            (oidcKey ap.state "identityServerUrl") u := by
        simp only [storeAuthorizationParams, if_neg hu]
      rw [hstore]
      simp only [if_neg hu]
      exact hext

/-- Witness for C7 at a concrete storage, parameters and configuration. -/
theorem store_retrieve_roundtrip_witness :
    retrieveAuthorizationParams
        (storeAuthorizationParams ⟨"s", "openid", "r", "n", "v"⟩
          ⟨"i", "a", "t", none, none⟩ "ci" "h" (some "idsrv") []) "s" =
      .ok ⟨"n", "r", "v", "ci", "h", some "idsrv",
           configToJs ⟨"i", "a", "t", none, none⟩⟩ :=
  store_retrieve_roundtrip [] ⟨"s", "openid", "r", "n", "v"⟩
    ⟨"i", "a", "t", none, none⟩ "ci" "h" (some "idsrv")
    (by decide) (by decide) (by decide) (by decide) (by decide) rfl

/-- Counterexample to C7 as stated: supplying no identity-server URL while
the storage already holds one for the same state makes retrieval return
the stale stored value rather than `undefined`. -/
theorem store_retrieve_roundtrip_counterexample :
    retrieveAuthorizationParams
        (storeAuthorizationParams ⟨"s", "openid", "r", "n", "v"⟩
          ⟨"i", "a", "t", none, none⟩ "ci" "h" none
          [("oidc_s_identityServerUrl", "old")]) "s" =
      .ok ⟨"n", "r", "v", "ci", "h", some "old",
           configToJs ⟨"i", "a", "t", none, none⟩⟩ ∧
    (some "old" : Option String) ≠ none :=
  ⟨rfl, by decide⟩

end Oidc

namespace SessionLock

/-- C2: with the holder's last heartbeat at `t = 5` and a crash at
`t = 6`, a single waiter starting at any time `s` before the record
expires resolves `true` no earlier than `STALE_TIMEOUT` (30) after the
last heartbeat and no later than that plus one Watchdog poll interval;
with the waiter starting at `t = 10` it resolves at exactly `t = 35`, not
before (its resolution tick is its first and only one). -/
theorem crash_recovery_timing :
    ∀ s : Fin 35, 6 ≤ s.val →
      resultOf (scenarioCrash s.val) 1 = some true ∧
      resolvedWithin (resolvedAtOf (scenarioCrash s.val) 1) 35 40 = true ∧
      superAtOf (scenarioCrash s.val) 0 = none ∧
      (s.val = 10 → resolvedAtOf (scenarioCrash s.val) 1 = some 35) := by decide

/-- Witness for C2 at the spec's Scenario C start time `s = 10`. -/
theorem crash_recovery_timing_witness :
    resolvedAtOf (scenarioCrash 10) 1 = some 35 :=
  (crash_recovery_timing ⟨10, by decide⟩ (by decide)).2.2.2 rfl

/-- C3 (amended): while the handoff completes before the abandoned
heartbeat record goes stale (cleanup duration at most `STALE_TIMEOUT`),
the holder receives the supersession signal at `t = 2` and the waiting
instance's `acquire` resolves `true` exactly the callback's duration after
that signal — in particular no earlier; for longer callbacks the waiter's
Watchdog staleness takeover fires first. -/
theorem handoff_waits_for_cleanup :
    ∀ cleanup : Fin 31, 1 ≤ cleanup.val →
      superAtOf (scenarioHandoff cleanup.val) 0 = some 2 ∧
      resolvedAtOf (scenarioHandoff cleanup.val) 1 = some (2 + cleanup.val) ∧
      resultOf (scenarioHandoff cleanup.val) 1 = some true := by decide

/-- Witness for C3 at the 2-tick cleanup of the test scenario. -/
theorem handoff_waits_for_cleanup_witness :
    resolvedAtOf (scenarioHandoff 2) 1 = some 4 :=
  (handoff_waits_for_cleanup ⟨2, by decide⟩ (by decide)).2.1

/-- Counterexample to C3 as stated: with a 31-tick `onSuperseded`, the
supersession signal arrives at `t = 2` but the waiter acquires at
`t = 32`, strictly earlier than signal plus callback duration (`t = 33`),
because its Watchdog deems the no-longer-refreshed record stale. -/
theorem handoff_waits_for_cleanup_counterexample :
    superAtOf (scenarioHandoff 31) 0 = some 2 ∧
    resolvedAtOf (scenarioHandoff 31) 1 = some 32 ∧
    resultOf (scenarioHandoff 31) 1 = some true ∧
    32 < 2 + 31 := by decide

/-- C4: with one holder and two instances requesting concurrently at
`t = 6`, exactly one requester resolves `false` immediately (within one
poll interval) and the other resolves `true` exactly when the holder
finishes its handoff (signal at `t = 6` plus its 2-tick cleanup); and in
general an instance whose entry observes a fresh LockRecord together with
a RequestRecord belonging to another requester resolves `false` at once,
writing nothing — it never queues. -/
theorem contention_one_backs_off :
    (resultOf scenarioContention 2 = some false ∧
     resolvedAtOf scenarioContention 2 = some 6 ∧
     resultOf scenarioContention 1 = some true ∧
     resolvedAtOf scenarioContention 1 = some 8 ∧
     superAtOf scenarioContention 0 = some 6) ∧
    (∀ (now : Nat) (st : SharedStore) (id cleanup : Nat) (l : LockRecord)
       (r : RequestRecord),
      st.lock = some l → isStale now l = false → st.request = some r →
      r.requesterId ≠ id →
      (acquireEntry now st id cleanup).1.phase = Phase.backedOff ∧
      (acquireEntry now st id cleanup).1.result = some false ∧
      (acquireEntry now st id cleanup).1.resolvedAt = some now ∧
      (acquireEntry now st id cleanup).2 = st) := by
  constructor
  · decide
  · intro now st id cleanup l r hl hs hr hid
    simp [acquireEntry, hl, hs, hr, hid]

/-- Witness for C4's back-off conjunct at a concrete store. -/
theorem contention_one_backs_off_witness :
    (acquireEntry 1 ⟨some ⟨0, 0⟩, some ⟨1, 0⟩⟩ 2 0).1.result = some false :=
  (contention_one_backs_off.2 1 ⟨some ⟨0, 0⟩, some ⟨1, 0⟩⟩ 2 0 ⟨0, 0⟩ ⟨1, 0⟩
    rfl rfl rfl (by decide)).2.1

end SessionLock

namespace SessionLock

theorem stepInst_done {i : Inst} (h : DoneTrue i) (now : Nat) (st : SharedStore) :
    stepInst now st i = (i, st) := by
  cases hf : i.frozen <;> simp [stepInst, hf, h.1]

theorem stepInsts_done (now : Nat) (st : SharedStore) :
    ∀ l : List Inst, (∀ i ∈ l, DoneTrue i) → stepInsts now l st = (l, st) := by
  intro l
  induction l with
  | nil => intro _; rfl
  | cons i rest ih =>
    intro h
    simp [stepInsts, stepInst_done (h i (by simp)) now st,
          ih (fun j hmem => h j (by simp [hmem]))]

theorem stepInsts_append (now : Nat) :
    ∀ (l1 l2 : List Inst) (st : SharedStore),
      stepInsts now (l1 ++ l2) st =
        ((stepInsts now l1 st).1 ++ (stepInsts now l2 (stepInsts now l1 st).2).1,
         (stepInsts now l2 (stepInsts now l1 st).2).2) := by
  intro l1
  induction l1 with
  | nil => intro l2 st; rfl
  | cons i rest ih =>
    intro l2 st
    simp [stepInsts, ih]

theorem filter_holds_done {l : List Inst} (h : ∀ i ∈ l, DoneTrue i) :
    l.filter holdsLock = [] := by
  rw [List.filter_eq_nil_iff]
  intro a ha
  simp [holdsLock, (h a ha).1]

theorem atMostOne_done {l : List Inst} (h : ∀ i ∈ l, DoneTrue i)
    (n : Nat) (st : SharedStore) : atMostOneHolderB ⟨n, st, l⟩ = true := by
  simp [atMostOneHolderB, filter_holds_done h]

theorem atMostOne_append_done {pre : List Inst} (h : ∀ i ∈ pre, DoneTrue i)
    (x : Inst) (n : Nat) (st : SharedStore) :
    atMostOneHolderB ⟨n, st, pre ++ [x]⟩ = true := by
  simp only [atMostOneHolderB, List.filter_append, filter_holds_done h,
             List.nil_append]
  cases hx : holdsLock x <;> simp [List.filter, hx]

theorem step_quiescent {w : World} (h : InvQ w) :
    step w = ⟨w.now + 1, w.store, w.insts⟩ := by
  simp [step, stepInsts_done w.now w.store w.insts h.2.2]

theorem quiescent_runTicksCheck (n : Nat) :
    ∀ w : World, InvQ w →
      (runTicksCheck w n).1 = true ∧
      (runTicksCheck w n).2 = ⟨w.now + n, w.store, w.insts⟩ := by
  induction n with
  | zero => intro w _; exact ⟨rfl, rfl⟩
  | succ n ih =>
    intro w hq
    have hstep := step_quiescent hq
    have hq2 : InvQ (⟨w.now + 1, w.store, w.insts⟩ : World) :=
      ⟨hq.1, hq.2.1, hq.2.2⟩
    obtain ⟨ht, he⟩ := ih ⟨w.now + 1, w.store, w.insts⟩ hq2
    refine ⟨?_, ?_⟩
    · simp only [runTicksCheck, hstep, ht, Bool.and_true]
      exact atMostOne_done hq.2.2 _ _
    · simp only [runTicksCheck, hstep, he]
      congr 1
      omega

end SessionLock

namespace SessionLock

theorem solo_step {w : World} {id : Nat} (h : SoloHolder w id) :
    SoloHolder (step w) id ∧ (step w).now = w.now + 1 ∧
    atMostOneHolderB (step w) = true := by
  obtain ⟨⟨hb, hlock⟩, hreq, pre, hh, hinsts, hpre, hid, hph, hres, hsup, hfr⟩ := h
  subst hid
  have hstep1 : stepInst w.now w.store hh =
      (hh, if HEARTBEAT_INTERVAL ≤ w.now - hb then
             { w.store with lock := some ⟨hh.id, w.now⟩ } else w.store) := by
    by_cases hc : HEARTBEAT_INTERVAL ≤ w.now - hb
    · simp [stepInst, hfr, hph, hreq, heartbeatStep, hlock, hc]
    · simp [stepInst, hfr, hph, hreq, heartbeatStep, hlock, hc]
  have hall : stepInsts w.now (pre ++ [hh]) w.store =
      (pre ++ [hh], (stepInst w.now w.store hh).2) := by
    rw [stepInsts_append, stepInsts_done _ _ _ hpre]
    simp [stepInsts, hstep1]
  have hw : step w = ⟨w.now + 1, (stepInst w.now w.store hh).2, pre ++ [hh]⟩ := by
    simp [step, hinsts, hall]
  refine ⟨?_, by rw [hw], ?_⟩
  · rw [hw, hstep1]
    refine ⟨?_, ?_, pre, hh, rfl, hpre, rfl, hph, hres, hsup, hfr⟩
    · by_cases hc : HEARTBEAT_INTERVAL ≤ w.now - hb
      · exact ⟨w.now, by simp [hc]⟩
      · exact ⟨hb, by simp [hc, hlock]⟩
    · by_cases hc : HEARTBEAT_INTERVAL ≤ w.now - hb
      · simp [hc, hreq]
      · simp [hc, hreq]
  · rw [hw]
    exact atMostOne_append_done hpre hh _ _

theorem solo_runTicksCheck (n : Nat) :
    ∀ (w : World) (id : Nat), SoloHolder w id →
      (runTicksCheck w n).1 = true ∧ SoloHolder (runTicksCheck w n).2 id ∧
      (runTicksCheck w n).2.now = w.now + n := by
  induction n with
  | zero => intro w id hs; exact ⟨rfl, hs, rfl⟩
  | succ n ih =>
    intro w id hs
    obtain ⟨hs1, hnow, hchk⟩ := solo_step hs
    obtain ⟨ht, hs2, hn2⟩ := ih (step w) id hs1
    refine ⟨?_, hs2, ?_⟩
    · simp only [runTicksCheck, ht, hchk, Bool.and_self]
    · simp only [runTicksCheck, hn2, hnow]
      omega

end SessionLock

namespace SessionLock

theorem applyStart_quiescent {w : World} (hq : InvQ w) (id cleanup : Nat) :
    SoloHolder (applyStart w id cleanup) id ∧
    atMostOneHolderB (applyStart w id cleanup) = true ∧
    (applyStart w id cleanup).now = w.now := by
  have hst : w.store = ⟨none, none⟩ := by
    have h1 := hq.1
    have h2 := hq.2.1
    cases hs : w.store with
    | mk l r =>
      rw [hs] at h1 h2
      simp only at h1 h2
      rw [h1, h2]
  have hw : applyStart w id cleanup =
      ⟨w.now, ⟨some ⟨id, w.now⟩, none⟩,
       w.insts ++ [⟨id, Phase.holding, w.now, cleanup, some true, some w.now,
                    none, false⟩]⟩ := by
    simp [applyStart, hst, acquireEntry, resolveTrue, claimStore]
  refine ⟨?_, ?_, by rw [hw]⟩
  · rw [hw]
    exact ⟨⟨w.now, rfl⟩, rfl, w.insts, _, rfl, hq.2.2, rfl, rfl, rfl, rfl, rfl⟩
  · rw [hw]
    exact atMostOne_append_done hq.2.2 _ _ _

theorem applyShutdown_solo {w : World} {id : Nat} (h : SoloHolder w id) :
    InvQ (applyShutdown w id) ∧ atMostOneHolderB (applyShutdown w id) = true ∧
    (applyShutdown w id).now = w.now := by
  obtain ⟨⟨hb, hlock⟩, hreq, pre, hh, hinsts, hpre, hid, hph, hres, hsup, hfr⟩ := h
  subst hid
  have hmap : ∀ l : List Inst, (∀ i ∈ l, DoneTrue i) →
      l.map (shutdownInst hh.id) = l := by
    intro l hl
    induction l with
    | nil => rfl
    | cons i rest ih =>
      have hi := hl i (by simp)
      have hone : shutdownInst hh.id i = i := by
        by_cases hii : i.id = hh.id <;> simp [shutdownInst, hii, hi.1]
      simp [hone, ih (fun j hmem => hl j (by simp [hmem]))]
  have hsh : shutdownInst hh.id hh = { hh with phase := Phase.released } := by
    simp [shutdownInst, hph]
  have hwi : (applyShutdown w hh.id).insts =
      pre ++ [{ hh with phase := Phase.released }] := by
    simp only [applyShutdown, hinsts, List.map_append, hmap pre hpre,
               List.map_cons, List.map_nil, hsh]
  refine ⟨⟨?_, ?_, ?_⟩, ?_, rfl⟩
  · simp [applyShutdown, hlock]
  · simp [applyShutdown, hreq]
  · rw [hwi]
    intro i hi
    rcases List.mem_append.mp hi with hi | hi
    · exact hpre i hi
    · have hieq : i = { hh with phase := Phase.released } := by simpa using hi
      rw [hieq]
      exact ⟨rfl, by simp [hres], by simp [hsup]⟩
  · have : applyShutdown w hh.id =
        ⟨w.now, (applyShutdown w hh.id).store,
         pre ++ [{ hh with phase := Phase.released }]⟩ := by
      rw [← hwi]
      rfl
    rw [this]
    exact atMostOne_append_done hpre _ _ _

end SessionLock

namespace SessionLock

theorem cleanRun_invariant :
    ∀ (pairs : List (Nat × Nat)) (w : World), InvQ w → Sep w.now pairs →
      (cleanRunCheck w pairs).1 = true ∧ InvQ (cleanRunCheck w pairs).2 := by
  intro pairs
  induction pairs with
  | nil => intro w hq _; exact ⟨rfl, hq⟩
  | cons pr rest ih =>
    obtain ⟨s, e⟩ := pr
    intro w hq hsep
    obtain ⟨hws, hse, hrest⟩ := hsep
    obtain ⟨ht1, he1⟩ := quiescent_runTicksCheck (s - w.now) w hq
    have hq1 : InvQ (⟨w.now + (s - w.now), w.store, w.insts⟩ : World) :=
      ⟨hq.1, hq.2.1, hq.2.2⟩
    obtain ⟨hsolo2, hchk2, hnow2⟩ := applyStart_quiescent hq1 w.insts.length 0
    obtain ⟨ht3, hsolo3, hnow3⟩ := solo_runTicksCheck (e - s) _ _ hsolo2
    obtain ⟨hq4, hchk4, hnow4⟩ := applyShutdown_solo hsolo3
    have hW4now :
        (applyShutdown
          (runTicksCheck
            (applyStart (⟨w.now + (s - w.now), w.store, w.insts⟩ : World)
              w.insts.length 0) (e - s)).2 w.insts.length).now = e := by
      rw [hnow4, hnow3, hnow2]
      show w.now + (s - w.now) + (e - s) = e
      omega
    obtain ⟨htrest, hqrest⟩ := ih _ hq4 (by rw [hW4now]; exact hrest)
    refine ⟨?_, ?_⟩
    · simp only [cleanRunCheck, he1]
      simp only [ht1, hchk2, ht3, hchk4, htrest, Bool.and_self, Bool.true_and,
                 Bool.and_true]
    · simp only [cleanRunCheck, he1]
      exact hqrest

end SessionLock

namespace SessionLock

/-- C1: for every sequence of instances started one at a time with a
clean release between each (separation condition `Sep`), the mutual
exclusion check — at most one instance holds the lock — passes after
every tick and around every event, every instance's `acquire` resolved
`true`, and no instance's own `onSuperseded` was ever invoked; moreover a
freshly started instance on a store with no lock or request state always
resolves `true` immediately. -/
theorem clean_sequential_use (pairs : List (Nat × Nat)) (hsep : Sep 0 pairs) :
    ((cleanRunCheck W0 pairs).1 = true ∧
     ∀ i ∈ (cleanRunCheck W0 pairs).2.insts,
       i.result = some true ∧ i.superInvokedAt = none) ∧
    (∀ (now id cleanup : Nat),
      (acquireEntry now ⟨none, none⟩ id cleanup).1.result = some true ∧
      (acquireEntry now ⟨none, none⟩ id cleanup).1.resolvedAt = some now) := by
  have hm := cleanRun_invariant pairs W0 ⟨rfl, rfl, by simp [W0]⟩ hsep
  exact ⟨⟨hm.1, fun i hi => ⟨(hm.2.2.2 i hi).2.1, (hm.2.2.2 i hi).2.2⟩⟩,
         fun now id c => ⟨rfl, rfl⟩⟩

/-- Witness for C1 on a concrete two-instance clean schedule. -/
theorem clean_sequential_use_witness :
    (cleanRunCheck W0 [(0, 3), (7, 12)]).1 = true :=
  (clean_sequential_use [(0, 3), (7, 12)]
    ⟨Nat.le_refl 0, by decide, by decide, by decide, trivial⟩).1.1

end SessionLock
